import Mathlib

/-
  Verification of the order/cart/inventory core of the Elogic360/ecommerce
  backend (backend/app/services/orders.py, cart_service.py, inventory.py and
  the models in backend/app/models).

  Shallow embedding conventions:
  - SQLAlchemy rows become Lean structures; the database session becomes an
    explicit `DB` record of row lists threaded through each service method.
  - Python Decimal amounts become `Rat` (Decimal arithmetic on these code
    paths is exact, so `Rat` models it exactly).
  - Stock counters are `Int` (Python ints, which the code can in principle
    drive negative), quantities are `Nat`.
  - Timestamps are `Int` seconds since an arbitrary epoch.
  - Service methods that the source protects with raise-before-mutate or
    try/commit/rollback are modelled as functions returning
    `DB × Except Err α`: on the error path the returned `DB` is the caller
    session state the source leaves behind, i.e. the unchanged input state.
-/

namespace ECom

/-! ## Status enumerations (app/models/order.py, app/models/cart.py) -/

/-- OrderStatus.PENDING.value -/
def OS_PENDING : String := "pending"

/-- OrderStatus.CONFIRMED.value -/
def OS_CONFIRMED : String := "confirmed"

/-- OrderStatus.PROCESSING.value -/
def OS_PROCESSING : String := "processing"

/-- OrderStatus.SHIPPED.value -/
def OS_SHIPPED : String := "shipped"

/-- OrderStatus.OUT_FOR_DELIVERY.value -/
def OS_OUT_FOR_DELIVERY : String := "out_for_delivery"

/-- OrderStatus.DELIVERED.value -/
def OS_DELIVERED : String := "delivered"

/-- OrderStatus.CANCELLED.value -/
def OS_CANCELLED : String := "cancelled"

/-- OrderStatus.REFUNDED.value -/
def OS_REFUNDED : String := "refunded"

/-- OrderStatus.ON_HOLD.value -/
def OS_ON_HOLD : String := "on_hold"

/-- OrderStatus.FAILED.value -/
def OS_FAILED : String := "failed"

/-- The ten members of the OrderStatus enum. -/
def allOrderStatuses : List String :=
  [OS_PENDING, OS_CONFIRMED, OS_PROCESSING, OS_SHIPPED, OS_OUT_FOR_DELIVERY,
   OS_DELIVERED, OS_CANCELLED, OS_REFUNDED, OS_ON_HOLD, OS_FAILED]

/-- PaymentStatus.PENDING.value -/
def PS_PENDING : String := "pending"

/-- PaymentStatus.PAID.value -/
def PS_PAID : String := "paid"

/-- CartStatus values -/
def CS_ACTIVE : String := "active"

/-- CartStatus.CONVERTED.value -/
def CS_CONVERTED : String := "converted"

/-- CartStatus.EXPIRED.value -/
def CS_EXPIRED : String := "expired"

/-! ## Row types -/

/-- Modelled from the spec: app/models/product.py is not present in the source
tree (only its importers are).  Spec section 3 defines Product as: id, price,
`stock` (integer), `is_active`; the services additionally read nothing else
that matters here. -/
structure Product where
  id : Nat
  price : Rat
  stock : Int
  is_active : Bool
deriving DecidableEq, Repr

/-- Modelled from the spec: ProductVariation (same missing file).  The cart
service reads id, product_id and an optional tracked stock
(`variation.stock is not None` in cart_service.py). -/
structure ProductVariation where
  id : Nat
  product_id : Nat
  stock : Option Int
deriving DecidableEq, Repr

/-- app/models/cart.py Cart (columns the services touch). -/
structure Cart where
  id : Nat
  user_id : Option Nat
  session_id : Option String
  status : String
  subtotal : Rat
  tax_amount : Rat
  discount_amount : Rat
  total : Rat
deriving DecidableEq, Repr

/-- app/models/cart.py CartItem. -/
structure CartItem where
  id : Nat
  cart_id : Nat
  user_id : Option Nat
  product_id : Nat
  variation_id : Option Nat
  quantity : Nat
  unit_price : Option Rat
deriving DecidableEq, Repr

/-- app/models/order.py Order (columns the services touch; the cancellation
metadata attributes are set on the object by cancel_order). -/
structure Order where
  id : Nat
  user_id : Option Nat
  address_id : Option Nat
  order_number : String
  total_amount : Rat
  shipping_cost : Rat
  tax_amount : Rat
  discount_amount : Rat
  payment_method : String
  payment_status : String
  status : String
  notes : Option String
  coupon_code : Option String
  created_at : Int
  cancelled_at : Option Int
  cancelled_by : Option Nat
  cancellation_reason : Option String
deriving DecidableEq, Repr

/-- app/models/order.py OrderItem. -/
structure OrderItem where
  id : Nat
  order_id : Nat
  product_id : Nat
  variation_id : Option Nat
  quantity : Nat
  price : Rat
deriving DecidableEq, Repr

/-- app/models/order.py OrderStatusHistory. -/
structure OrderStatusHistory where
  order_id : Nat
  from_status : Option String
  to_status : String
  changed_by : Option Nat
  notes : Option String
deriving DecidableEq, Repr

/-- app/models/inventory_log.py InventoryLog. -/
structure InventoryLog where
  product_id : Nat
  change_quantity : Int
  new_stock : Int
  reason : String
  order_id : Option Nat
  admin_id : Option Nat
deriving DecidableEq, Repr

/-- app/models/customer.py Address (the columns create_order_from_cart filters on). -/
structure Address where
  id : Nat
  user_id : Nat
deriving DecidableEq, Repr

/-- The relational store: one list of rows per table, plus the id sequence
used for freshly inserted rows. -/
structure DB where
  products : List Product
  variations : List ProductVariation
  carts : List Cart
  cart_items : List CartItem
  orders : List Order
  order_items : List OrderItem
  status_history : List OrderStatusHistory
  inventory_logs : List InventoryLog
  addresses : List Address
  next_id : Nat
deriving DecidableEq, Repr

/-- db.query(Product).filter(Product.id == pid).first() -/
def findProduct (db : DB) (pid : Nat) : Option Product :=
  db.products.find? (fun p => p.id == pid)

/-- Cart.items relationship: cart items of one cart. -/
def DB.itemsOfCart (db : DB) (cartId : Nat) : List CartItem :=
  db.cart_items.filter (fun it => it.cart_id == cartId)

/-- Order.items relationship: order items of one order. -/
def DB.itemsOfOrder (db : DB) (orderId : Nat) : List OrderItem :=
  db.order_items.filter (fun it => it.order_id == orderId)

/-- UPDATE products SET stock = s WHERE id = pid. -/
def setStock (ps : List Product) (pid : Nat) (s : Int) : List Product :=
  ps.map (fun p => if p.id == pid then { p with stock := s } else p)

/-- Replace a cart row by id. -/
def DB.updateCart (db : DB) (c : Cart) : DB :=
  { db with carts := db.carts.map (fun c0 => if c0.id == c.id then c else c0) }

/-- Replace an order row by id. -/
def DB.updateOrder (db : DB) (o : Order) : DB :=
  { db with orders := db.orders.map (fun o0 => if o0.id == o.id then o else o0) }

/-! ## Cart service (app/services/cart_service.py) -/

/-- CartService.TAX_RATE = Decimal("0.18") -/
def TAX_RATE : Rat := 18 / 100

/-- CartService.FREE_SHIPPING_THRESHOLD = Decimal("50000") -/
def FREE_SHIPPING_THRESHOLD : Rat := 50000

/-- CartService.SHIPPING_COST = Decimal("5000") -/
def SHIPPING_COST : Rat := 5000

/-- CartService.MAX_QUANTITY_PER_ITEM = 10 -/
def MAX_QUANTITY_PER_ITEM : Nat := 10

/-- OrderService.ORDER_CANCELLATION_WINDOW_HOURS = 24 -/
def ORDER_CANCELLATION_WINDOW_HOURS : Int := 24

/-- The price used for a cart line: `item.unit_price or item.product.price`.
Python `or` falls through both when unit_price is None and when it is
Decimal("0").  A dangling product_id cannot survive in a cart item (the FK is
ON DELETE CASCADE), so the 0 default for a missing product is never reached
on well-formed states. -/
def effectiveUnitPrice (db : DB) (it : CartItem) : Rat :=
  match it.unit_price with
  | some p => if p == 0 then ((findProduct db it.product_id).map Product.price).getD 0 else p
  | none => ((findProduct db it.product_id).map Product.price).getD 0

/-- The subtotal loop shared textually by CartService._update_cart_totals. -/
def cartItemsSubtotal (db : DB) (items : List CartItem) : Rat :=
  items.foldl (fun acc it => acc + effectiveUnitPrice db it * (it.quantity : Rat)) 0

/-- CartService._update_cart_totals applied to one cart row: recompute
subtotal, tax, shipping and total from the current item set and store them
on the cart (discount_amount itself is left as stored). -/
def updateCartTotalsRow (db : DB) (cart : Cart) : Cart :=
  let subtotal := cartItemsSubtotal db (db.itemsOfCart cart.id)
  let tax_amount := subtotal * TAX_RATE
  let shipping := if subtotal < FREE_SHIPPING_THRESHOLD && 0 < subtotal then SHIPPING_COST else 0
  let discount := cart.discount_amount
  let total := subtotal + tax_amount + shipping - discount
  { cart with subtotal := subtotal, tax_amount := tax_amount, total := total }

/-- CartService._update_cart_totals including the session write-back. -/
def update_cart_totals (db : DB) (cartId : Nat) : DB :=
  match db.carts.find? (fun c => c.id == cartId) with
  | none => db
  | some c => db.updateCart (updateCartTotalsRow db c)

/-- CartError raise sites in cart_service.py, one constructor per distinct
error condition. -/
inductive CartErr where
  | productNotFound
  | variationNotFound
  | limitExceeded
  | insufficientStock (available : Int)
  | itemNotFound
deriving DecidableEq, Repr

/-- CartItemCreate (app/schemas/cart.py): product_id, optional variation_id,
quantity (the schema enforces 1 to 10 at the API boundary). -/
structure CartItemCreate where
  product_id : Nat
  variation_id : Option Nat
  quantity : Nat
deriving DecidableEq, Repr

/-- The available-stock resolution of add_item: the variation stock when a
variation is named, exists for this product and tracks stock; the product
stock otherwise; NotFound when the named variation is missing. -/
def addItemAvailableStock (db : DB) (d : CartItemCreate) (product : Product) :
    Except CartErr Int :=
  match d.variation_id with
  | none => .ok product.stock
  | some vid =>
    match db.variations.find? (fun v => v.id == vid && v.product_id == d.product_id) with
    | none => .error .variationNotFound
    | some v =>
      match v.stock with
      | some s => .ok s
      | none => .ok product.stock

/-- The existing-line lookup of add_item: same cart, product and variation. -/
def addItemExisting (db : DB) (cart : Cart) (d : CartItemCreate) : Option CartItem :=
  db.cart_items.find? (fun it =>
    it.cart_id == cart.id && it.product_id == d.product_id && it.variation_id == d.variation_id)

/-- The resulting line quantity of add_item: existing quantity plus the
requested quantity when the line is merged, else the requested quantity. -/
def addItemNewQuantity (db : DB) (cart : Cart) (d : CartItemCreate) : Nat :=
  match addItemExisting db cart d with
  | some it => it.quantity + d.quantity
  | none => d.quantity

/-- CartService.add_item.  Returns the session state and either the created
or updated cart item, or the CartError the source raises. -/
def add_item (db : DB) (cart : Cart) (d : CartItemCreate) : DB × Except CartErr CartItem :=
  match db.products.find? (fun p => p.id == d.product_id && p.is_active) with
  | none => (db, .error .productNotFound)
  | some product =>
    match addItemAvailableStock db d product with
    | .error e => (db, .error e)
    | .ok available_stock =>
      let new_quantity := addItemNewQuantity db cart d
      if new_quantity > MAX_QUANTITY_PER_ITEM then
        (db, .error .limitExceeded)
      else if (new_quantity : Int) > available_stock then
        (db, .error (.insufficientStock available_stock))
      else
        match addItemExisting db cart d with
        | some it =>
          let it' := { it with quantity := new_quantity, unit_price := some product.price }
          let db1 := { db with cart_items :=
            (db.cart_items.map (fun x => if x.id == it.id then it' else x)) }
          (update_cart_totals db1 cart.id, .ok it')
        | none =>
          let it' : CartItem :=
            { id := db.next_id, cart_id := cart.id, user_id := cart.user_id,
              product_id := d.product_id, variation_id := d.variation_id,
              quantity := d.quantity, unit_price := some product.price }
          let db1 := { db with cart_items := db.cart_items ++ [it'],
                               next_id := db.next_id + 1 }
          (update_cart_totals db1 cart.id, .ok it')

/-- The per-line available stock used by validate_cart_for_checkout: the
variation stock when the item has a variation that tracks stock, else the
product stock. -/
def lineAvailableStock (db : DB) (p : Product) (it : CartItem) : Int :=
  match it.variation_id with
  | none => p.stock
  | some vid =>
    match db.variations.find? (fun v => v.id == vid) with
    | none => p.stock
    | some v =>
      match v.stock with
      | some s => s
      | none => p.stock

/-- CartService.validate_cart_for_checkout: (is_valid, issues). -/
def validate_cart_for_checkout (db : DB) (cart : Cart) : Bool × List String :=
  let items := db.itemsOfCart cart.id
  if items.isEmpty then (false, ["Cart is empty"])
  else
    let issues := items.foldl (fun acc it =>
      match findProduct db it.product_id with
      | none => acc ++ ["product no longer available"]
      | some p =>
        if !p.is_active then acc ++ ["product no longer available"]
        else if (it.quantity : Int) > lineAvailableStock db p it then
          acc ++ ["insufficient stock"]
        else acc) []
    (issues.isEmpty, issues)

/-- CartService.get_cart for a user: the ACTIVE cart of that user, if any. -/
def get_cart (db : DB) (userId : Nat) : Option Cart :=
  db.carts.find? (fun c => c.user_id == some userId && c.status == CS_ACTIVE)

/-- CartService.mark_cart_converted. -/
def mark_cart_converted (db : DB) (cart : Cart) : DB :=
  db.updateCart { cart with status := CS_CONVERTED }

/-! ## Order service (app/services/orders.py) -/

/-- OrderError raise sites in orders.py, one constructor per distinct error
condition.  `wrapped` is the generic 500 re-raise produced by the
try/except blocks of create_order_from_cart and create_guest_order. -/
inductive OrderErr where
  | emptyCart
  | validationFailed (issues : List String)
  | addressNotFound
  | orderNotFound
  | forbidden
  | notCancellable (current : String)
  | windowExpired
  | invalidTransition (fromS toS : String)
  | insufficientStock (pid : Nat)
  | productNotFound (pid : Nat)
  | wrapped (inner : OrderErr)
deriving DecidableEq, Repr

/-- OrderFromCart (app/schemas/order.py). -/
structure OrderFromCart where
  address_id : Nat
  payment_method : String
  notes : Option String
  promo_code : Option String
deriving DecidableEq, Repr

/-- OrderItemCreate (app/schemas/order.py): quantity has ge=1 at the schema
boundary. -/
structure OrderItemCreate where
  product_id : Nat
  variation_id : Option Nat
  quantity : Nat
deriving DecidableEq, Repr

/-- GuestOrderCreate (app/schemas/order.py), the fields the service reads. -/
structure GuestOrderCreate where
  guest_name : String
  guest_email : String
  guest_phone : String
  items : List OrderItemCreate
  payment_method : String
deriving DecidableEq, Repr

/-- Totals dictionary returned by OrderService._calculate_order_totals and
_validate_and_calculate_items. -/
structure Totals where
  subtotal : Rat
  tax : Rat
  shipping : Rat
  total : Rat
deriving DecidableEq, Repr

/-- OrderService._calculate_order_totals: its own subtotal loop, tax,
shipping without the positivity guard the cart version has, and a total with
no discount term (the dict it returns has no "discount" key). -/
def calculate_order_totals (db : DB) (cart_items : List CartItem) : Totals :=
  let subtotal := cart_items.foldl
    (fun acc it => acc + effectiveUnitPrice db it * (it.quantity : Rat)) 0
  let tax := subtotal * TAX_RATE
  let shipping := if subtotal < FREE_SHIPPING_THRESHOLD then SHIPPING_COST else 0
  let total := subtotal + tax + shipping
  ⟨subtotal, tax, shipping, total⟩

/-- OrderService._create_order_item: snapshot of product id, variation,
quantity; price is `cart_item.unit_price if cart_item.unit_price else
product.price`, the same falsy fallback as the totals loops. -/
def create_order_item (db : DB) (orderId : Nat) (it : CartItem) (rowId : Nat) : OrderItem :=
  { id := rowId, order_id := orderId, product_id := it.product_id,
    variation_id := it.variation_id, quantity := it.quantity,
    price := effectiveUnitPrice db it }

/-- OrderService._reserve_stock: fail when quantity exceeds stock, else
decrement and append one InventoryLog with change_quantity = -quantity and
new_stock = the stock just written.  A cart item whose product row is gone
makes the source raise (attribute access on None), surfaced here as
productNotFound; either way the enclosing transaction aborts. -/
def reserve_stock (db : DB) (it : CartItem) (orderId : Nat) : Except OrderErr DB :=
  match findProduct db it.product_id with
  | none => .error (.productNotFound it.product_id)
  | some p =>
    if p.stock < (it.quantity : Int) then .error (.insufficientStock it.product_id)
    else
      let newStock := p.stock - (it.quantity : Int)
      .ok { db with
        products := setStock db.products it.product_id newStock,
        inventory_logs := db.inventory_logs ++
          [{ product_id := it.product_id, change_quantity := -(it.quantity : Int),
             new_stock := newStock, reason := "order_placed",
             order_id := some orderId, admin_id := none }] }

/-- The per-line body of step 4 of create_order_from_cart: insert the
OrderItem snapshot, then reserve stock, for every cart line in order. -/
def insertItemsAndReserve (db : DB) (orderId : Nat) : List CartItem → Except OrderErr DB
  | [] => .ok db
  | it :: rest =>
    let oi := create_order_item db orderId it db.next_id
    let db1 := { db with order_items := db.order_items ++ [oi], next_id := db.next_id + 1 }
    match reserve_stock db1 it orderId with
    | .error e => .error e
    | .ok db2 => insertItemsAndReserve db2 orderId rest

/-- OrderService._record_status_change. -/
def record_status_change (db : DB) (orderId : Nat) (fromS : Option String)
    (toS : String) (changed_by : Option Nat) (notes : Option String) : DB :=
  { db with status_history := db.status_history ++
      [{ order_id := orderId, from_status := fromS, to_status := toS,
         changed_by := changed_by, notes := notes }] }

/-- The try block of create_order_from_cart: build the Order row, insert
items and reservations, record the initial PENDING status, mark the cart
converted. -/
def createOrderAttempt (db : DB) (userId : Nat) (cart : Cart)
    (order_data : OrderFromCart) (now : Int) : Except OrderErr (DB × Order) :=
  let items := db.itemsOfCart cart.id
  let totals := calculate_order_totals db items
  let order : Order :=
    { id := db.next_id, user_id := some userId, address_id := some order_data.address_id,
      order_number := "ORD-" ++ toString db.next_id,
      total_amount := totals.total, shipping_cost := totals.shipping,
      tax_amount := totals.tax, discount_amount := 0,
      payment_method := order_data.payment_method, payment_status := PS_PENDING,
      status := OS_PENDING, notes := order_data.notes,
      coupon_code := order_data.promo_code, created_at := now,
      cancelled_at := none, cancelled_by := none, cancellation_reason := none }
  let db1 := { db with orders := db.orders ++ [order], next_id := db.next_id + 1 }
  match insertItemsAndReserve db1 order.id items with
  | .error e => .error e
  | .ok db2 =>
    let db3 := record_status_change db2 order.id none OS_PENDING (some userId) none
    let db4 := mark_cart_converted db3 cart
    .ok (db4, order)

/-- OrderService.create_order_from_cart.  The guards before the try block
raise with the session untouched; a failure inside the try block hits
db.rollback() and is re-raised wrapped, also leaving the session state
unchanged. -/
def create_order_from_cart (db : DB) (userId : Nat) (order_data : OrderFromCart)
    (now : Int) : DB × Except OrderErr Order :=
  match get_cart db userId with
  | none => (db, .error .emptyCart)
  | some cart =>
    if (db.itemsOfCart cart.id).isEmpty then (db, .error .emptyCart)
    else
      let v := validate_cart_for_checkout db cart
      if !v.1 then (db, .error (.validationFailed v.2))
      else
        match db.addresses.find? (fun a => a.id == order_data.address_id && a.user_id == userId) with
        | none => (db, .error .addressNotFound)
        | some _ =>
          match createOrderAttempt db userId cart order_data now with
          | .error e => (db, .error (.wrapped e))
          | .ok (db', order) => (db', .ok order)

/-- One validated entry of OrderService._validate_and_calculate_items. -/
structure ValidatedItem where
  product_id : Nat
  variation_id : Option Nat
  quantity : Nat
  price : Rat
deriving DecidableEq, Repr

/-- OrderService._validate_and_calculate_items: per item, the product must
exist, be active, and have stock at least the requested quantity; the price
used is the live product price. -/
def validate_and_calculate_items (db : DB) :
    List OrderItemCreate → Except OrderErr (List ValidatedItem × Rat)
  | [] => .ok ([], 0)
  | item :: rest =>
    match findProduct db item.product_id with
    | none => .error (.productNotFound item.product_id)
    | some product =>
      if !product.is_active then .error (.productNotFound item.product_id)
      else if product.stock < (item.quantity : Int) then
        .error (.insufficientStock item.product_id)
      else
        match validate_and_calculate_items db rest with
        | .error e => .error e
        | .ok (vs, subRest) =>
          .ok ({ product_id := product.id, variation_id := item.variation_id,
                 quantity := item.quantity, price := product.price } :: vs,
               product.price * (item.quantity : Rat) + subRest)

/-- OrderService._reserve_stock_direct: like _reserve_stock but looked up by
product id; a missing product raises 404 inside the try block. -/
def reserve_stock_direct (db : DB) (pid : Nat) (quantity : Nat) (orderId : Nat) :
    Except OrderErr DB :=
  match findProduct db pid with
  | none => .error (.productNotFound pid)
  | some p =>
    if p.stock < (quantity : Int) then .error (.insufficientStock pid)
    else
      let newStock := p.stock - (quantity : Int)
      .ok { db with
        products := setStock db.products pid newStock,
        inventory_logs := db.inventory_logs ++
          [{ product_id := pid, change_quantity := -(quantity : Int),
             new_stock := newStock, reason := "order_placed",
             order_id := some orderId, admin_id := none }] }

/-- The item loop of create_guest_order: insert each OrderItem row and
reserve its stock. -/
def insertGuestItemsAndReserve (db : DB) (orderId : Nat) :
    List ValidatedItem → Except OrderErr DB
  | [] => .ok db
  | v :: rest =>
    let oi : OrderItem :=
      { id := db.next_id, order_id := orderId, product_id := v.product_id,
        variation_id := v.variation_id, quantity := v.quantity, price := v.price }
    let db1 := { db with order_items := db.order_items ++ [oi], next_id := db.next_id + 1 }
    match reserve_stock_direct db1 v.product_id v.quantity orderId with
    | .error e => .error e
    | .ok db2 => insertGuestItemsAndReserve db2 orderId rest

/-- The try block of create_guest_order. -/
def createGuestOrderAttempt (db : DB) (order_data : GuestOrderCreate)
    (validated : List ValidatedItem) (subtotal : Rat) (now : Int) :
    Except OrderErr (DB × Order) :=
  let tax := subtotal * TAX_RATE
  let shipping := if subtotal < FREE_SHIPPING_THRESHOLD then SHIPPING_COST else 0
  let total := subtotal + tax + shipping
  let order : Order :=
    { id := db.next_id, user_id := none, address_id := none,
      order_number := "ORD-" ++ toString db.next_id,
      total_amount := total, shipping_cost := shipping,
      tax_amount := tax, discount_amount := 0,
      payment_method := order_data.payment_method, payment_status := PS_PENDING,
      status := OS_PENDING,
      notes := some ("Guest: " ++ order_data.guest_name ++ " | " ++
        order_data.guest_email ++ " | " ++ order_data.guest_phone),
      coupon_code := none, created_at := now,
      cancelled_at := none, cancelled_by := none, cancellation_reason := none }
  let db1 := { db with orders := db.orders ++ [order], next_id := db.next_id + 1 }
  match insertGuestItemsAndReserve db1 order.id validated with
  | .error e => .error e
  | .ok db2 => .ok (record_status_change db2 order.id none OS_PENDING none none, order)

/-- OrderService.create_guest_order: validation runs before the try block
(raising with the session untouched); failures inside the try block roll
back and re-raise wrapped. -/
def create_guest_order (db : DB) (order_data : GuestOrderCreate) (now : Int) :
    DB × Except OrderErr Order :=
  match validate_and_calculate_items db order_data.items with
  | .error e => (db, .error e)
  | .ok (validated, subtotal) =>
    match createGuestOrderAttempt db order_data validated subtotal now with
    | .error e => (db, .error (.wrapped e))
    | .ok (db', order) => (db', .ok order)

/-- OrderService._get_valid_status_transitions, transcribed row by row. -/
def get_valid_status_transitions (current_status : String) : List String :=
  if current_status == OS_PENDING then
    [OS_CONFIRMED, OS_CANCELLED, OS_FAILED, OS_ON_HOLD]
  else if current_status == OS_CONFIRMED then
    [OS_PROCESSING, OS_CANCELLED, OS_ON_HOLD]
  else if current_status == OS_PROCESSING then
    [OS_SHIPPED, OS_CANCELLED, OS_ON_HOLD]
  else if current_status == OS_SHIPPED then
    [OS_OUT_FOR_DELIVERY, OS_DELIVERED]
  else if current_status == OS_OUT_FOR_DELIVERY then
    [OS_DELIVERED]
  else if current_status == OS_DELIVERED then
    [OS_REFUNDED]
  else if current_status == OS_ON_HOLD then
    [OS_PENDING, OS_PROCESSING, OS_CANCELLED]
  else if current_status == OS_CANCELLED then
    []
  else if current_status == OS_REFUNDED then
    []
  else if current_status == OS_FAILED then
    [OS_PENDING]
  else
    []

/-- OrderService.update_order_status: look the order up, reject a new status
that is not among the valid transitions from the current one before touching
anything, else write the new status and append a history row.  (The shipped
and delivered timestamp write-backs of the source land on non-persistent
property aliases of the Order model and leave no column behind; they are not
modelled.) -/
def update_order_status (db : DB) (orderId : Nat) (new_status : String)
    (admin_id : Option Nat) (notes : Option String) : DB × Except OrderErr Order :=
  match db.orders.find? (fun o => o.id == orderId) with
  | none => (db, .error .orderNotFound)
  | some order =>
    let old_status := order.status
    if !((get_valid_status_transitions old_status).contains new_status) then
      (db, .error (.invalidTransition old_status new_status))
    else
      let order' := { order with status := new_status }
      let db1 := db.updateOrder order'
      let db2 := record_status_change db1 orderId (some old_status) new_status admin_id notes
      (db2, .ok order')

/-- Order.is_cancellable (app/models/order.py). -/
def Order.is_cancellable (o : Order) : Bool :=
  o.status == OS_PENDING || o.status == OS_CONFIRMED || o.status == OS_PROCESSING

/-- The cancellation window test of cancel_order.  The source computes
elapsed seconds divided by 3600 as a float and compares against 24; over
exact arithmetic that is the integer comparison below. -/
def cancellationWindowExpired (now createdAt : Int) : Bool :=
  ORDER_CANCELLATION_WINDOW_HOURS * 3600 < now - createdAt

/-- OrderService._release_stock: silently a no-op when the product row no
longer exists, else increment stock and append a positive ledger entry. -/
def release_stock (db : DB) (pid : Nat) (quantity : Nat) (orderId : Nat) : DB :=
  match findProduct db pid with
  | none => db
  | some p =>
    let newStock := p.stock + (quantity : Int)
    { db with
      products := setStock db.products pid newStock,
      inventory_logs := db.inventory_logs ++
        [{ product_id := pid, change_quantity := (quantity : Int),
           new_stock := newStock, reason := "order_cancelled",
           order_id := some orderId, admin_id := none }] }

/-- The restore-stock loop of cancel_order: release every order item in
order. -/
def releaseItems (db : DB) (orderId : Nat) (items : List OrderItem) : DB :=
  items.foldl (fun acc it => release_stock acc it.product_id it.quantity orderId) db

/-- OrderService.cancel_order.  All raises happen before any mutation; on
success every item is released, the order is set to CANCELLED with
cancellation metadata, and a history row is appended. -/
def cancel_order (db : DB) (now : Int) (orderId : Nat) (userId : Nat)
    (reason : Option String) (is_admin : Bool) : DB × Except OrderErr Order :=
  match db.orders.find? (fun o => o.id == orderId) with
  | none => (db, .error .orderNotFound)
  | some order =>
    if !is_admin && !(order.user_id == some userId) then
      (db, .error .forbidden)
    else if !order.is_cancellable then
      (db, .error (.notCancellable order.status))
    else if !is_admin && cancellationWindowExpired now order.created_at then
      (db, .error .windowExpired)
    else
      let old_status := order.status
      let items := db.itemsOfOrder orderId
      let db1 := releaseItems db orderId items
      let order' : Order :=
        { order with
          status := OS_CANCELLED
          cancelled_at := some now
          cancelled_by := some userId
          cancellation_reason := reason }
      let db2 := db1.updateOrder order'
      let db3 := record_status_change db2 orderId (some old_status) OS_CANCELLED (some userId) reason
      (db3, .ok order')

/-! ## Inventory service (app/services/inventory.py) -/

/-- InventoryService error raise sites. -/
inductive InvErr where
  | productNotFound
  | negativeStock
deriving DecidableEq, Repr

/-- InventoryService.update_stock: the manual admin adjustment path.  Refuses
to drive stock below zero; on success writes the new stock and appends a
ledger entry whose change_quantity is the applied delta and whose new_stock
is the stock just written. -/
def update_stock (db : DB) (pid : Nat) (change_quantity : Int) (reason : String)
    (admin_id : Option Nat) : DB × Except InvErr Product :=
  match findProduct db pid with
  | none => (db, .error .productNotFound)
  | some p =>
    let new_stock := p.stock + change_quantity
    if new_stock < 0 then (db, .error .negativeStock)
    else
      let db' := { db with
        products := setStock db.products pid new_stock,
        inventory_logs := db.inventory_logs ++
          [{ product_id := pid, change_quantity := change_quantity,
             new_stock := new_stock, reason := reason,
             order_id := none, admin_id := admin_id }] }
      (db', .ok { p with stock := new_stock })

/-! ## Interleaving model of the stock-reservation critical section

_reserve_stock (orders.py lines 597-618) runs read stock, compare, write
stock inside an ordinary transaction; the source contains no
SELECT ... FOR UPDATE and no version check anywhere (spec section 9 records
this omission).  Under the pool-of-handlers model of spec section 5, two
sessions each read the committed stock, each compare against their own
quantity, and each write back their own observed-minus-quantity value. -/

/-- The read step of _reserve_stock as executed by one session: the stock
value its transaction observes. -/
def reserveObserve (committedStock : Int) : Int := committedStock

/-- The check-and-write step of _reserve_stock as executed by one session:
fail when the observed stock is short, else install observed - qty. -/
def reserveCommit (observed qty : Int) : Option Int :=
  if observed < qty then none else some (observed - qty)

/-- Outcome of running two reservation sessions A and B against one product
under the schedule read-A, read-B, write-A, write-B (both reads happen
before either write; the second write is last-writer-wins on the stock
column): whether A succeeded, whether B succeeded, and the final stock. -/
def twoSessionReserve (stock q1 q2 : Int) : Bool × Bool × Int :=
  let o1 := reserveObserve stock
  let o2 := reserveObserve stock
  match reserveCommit o1 q1 with
  | none =>
    match reserveCommit o2 q2 with
    | none => (false, false, stock)
    | some s2 => (false, true, s2)
  | some s1 =>
    match reserveCommit o2 q2 with
    | none => (true, false, s1)
    | some s2 => (true, true, s2)

/-! ## Ledger consistency infrastructure -/

/-- The stock of a product as stored, by id. -/
def stockOf (db : DB) (pid : Nat) : Option Int :=
  (findProduct db pid).map Product.stock

/-- Spec section 3: summing change_quantity for a product over the ledger. -/
def ledgerSum (logs : List InventoryLog) (pid : Nat) : Int :=
  ((logs.filter (fun l => l.product_id == pid)).map InventoryLog.change_quantity).sum

/-- Spec section 8 ledger consistency: for every product,
stock = baseline + the sum of its ledger deltas. -/
def LedgerInv (base : Nat → Int) (db : DB) : Prop :=
  ∀ p ∈ db.products, p.stock = base p.id + ledgerSum db.inventory_logs p.id

/-- Each ledger entry carries new_stock equal to the running ledger total at
the moment it was appended, i.e. the stock right after its operation.
Stated over every split of the log list. -/
def entriesOkFrom (base : Nat → Int) : List InventoryLog → List InventoryLog → Prop
  | _, [] => True
  | pre, l :: rest =>
    l.new_stock = base l.product_id + ledgerSum (pre ++ [l]) l.product_id ∧
      entriesOkFrom base (pre ++ [l]) rest

/-- The whole ledger is entry-wise consistent with the running totals. -/
def EntriesOk (base : Nat → Int) (logs : List InventoryLog) : Prop :=
  entriesOkFrom base [] logs

/-- Id discipline of the autoincrement columns: every row id already present
is below the sequence value.  Holds for every state the store can actually
reach and is what makes freshly inserted rows genuinely fresh. -/
def FreshIds (db : DB) : Prop :=
  (∀ o ∈ db.orders, o.id < db.next_id) ∧
  (∀ oi ∈ db.order_items, oi.order_id < db.next_id) ∧
  (∀ it ∈ db.cart_items, it.id < db.next_id)

/-! ## The spec-side transition table (spec section 4.3) -/

/-- Written from the spec, for comparison with the code table: the section
4.3 transition relation. -/
def specAllowsTransition (f t : String) : Bool :=
  (f == OS_PENDING && (t == OS_CONFIRMED || t == OS_CANCELLED || t == OS_FAILED || t == OS_ON_HOLD)) ||
  (f == OS_CONFIRMED && (t == OS_PROCESSING || t == OS_CANCELLED || t == OS_ON_HOLD)) ||
  (f == OS_PROCESSING && (t == OS_SHIPPED || t == OS_CANCELLED || t == OS_ON_HOLD)) ||
  (f == OS_SHIPPED && (t == OS_OUT_FOR_DELIVERY || t == OS_DELIVERED)) ||
  (f == OS_OUT_FOR_DELIVERY && t == OS_DELIVERED) ||
  (f == OS_DELIVERED && t == OS_REFUNDED) ||
  (f == OS_ON_HOLD && (t == OS_PENDING || t == OS_PROCESSING || t == OS_CANCELLED)) ||
  (f == OS_FAILED && t == OS_PENDING)

/-! ## Projections and aggregates used by the statements -/

/-- Total quantity a cart item list carries for one product. -/
def cartQty (items : List CartItem) (pid : Nat) : Nat :=
  ((items.filter (fun it => it.product_id == pid)).map CartItem.quantity).sum

/-- Total quantity an order item list carries for one product. -/
def orderQty (items : List OrderItem) (pid : Nat) : Nat :=
  ((items.filter (fun it => it.product_id == pid)).map OrderItem.quantity).sum

/-- Total quantity a validated guest item list carries for one product. -/
def validatedQty (items : List ValidatedItem) (pid : Nat) : Nat :=
  ((items.filter (fun v => v.product_id == pid)).map ValidatedItem.quantity).sum

/-- The (product, quantity) line of a cart item. -/
def cartLine (it : CartItem) : Nat × Nat := (it.product_id, it.quantity)

/-- The (product, quantity) line of an order item. -/
def orderLine (oi : OrderItem) : Nat × Nat := (oi.product_id, oi.quantity)

/-- The (product, quantity) line of a validated guest item. -/
def validatedLine (v : ValidatedItem) : Nat × Nat := (v.product_id, v.quantity)

/-- The audit-relevant fields of a ledger entry. -/
def logLine (l : InventoryLog) : Nat × Int × String × Option Nat :=
  (l.product_id, l.change_quantity, l.reason, l.order_id)

/-- Total quantity a list of (product, quantity) lines carries for one
product. -/
def lineQty (lines : List (Nat × Nat)) (pid : Nat) : Nat :=
  ((lines.filter (fun l => l.1 == pid)).map Prod.snd).sum

/-- Total quantity a guest order request carries for one product. -/
def requestedQty (items : List OrderItemCreate) (pid : Nat) : Nat :=
  ((items.filter (fun i => i.product_id == pid)).map OrderItemCreate.quantity).sum

/-- Claim C7 words the shipping rule as: zero exactly when the subtotal
reaches the free-shipping threshold, the flat fee otherwise. -/
def claimedShipping (subtotal : Rat) : Rat :=
  if FREE_SHIPPING_THRESHOLD ≤ subtotal then 0 else SHIPPING_COST

/-- Claim C7 words the cart total as subtotal + tax + shipping - discount
with that shipping rule. -/
def claimedCartTotal (subtotal discount : Rat) : Rat :=
  subtotal + subtotal * TAX_RATE + claimedShipping subtotal - discount

/-- The amended shipping rule: also zero on a zero subtotal (empty or free
cart), matching the positivity guard of _update_cart_totals. -/
def claimedShippingAmended (subtotal : Rat) : Rat :=
  if FREE_SHIPPING_THRESHOLD ≤ subtotal ∨ subtotal = 0 then 0 else SHIPPING_COST

/-- Sample order used to exercise update_order_status on a terminal status. -/
def orderDelivered : Order :=
  { id := 1, user_id := some 7, address_id := some 3, order_number := "ORD-1",
    total_amount := 118, shipping_cost := 0, tax_amount := 18, discount_amount := 0,
    payment_method := "cod", payment_status := PS_PAID, status := OS_DELIVERED,
    notes := none, coupon_code := none, created_at := 0,
    cancelled_at := none, cancelled_by := none, cancellation_reason := none }

/-- Sample store holding only that order. -/
def dbDelivered : DB :=
  { products := [], variations := [], carts := [], cart_items := [],
    orders := [orderDelivered], order_items := [], status_history := [],
    inventory_logs := [], addresses := [], next_id := 2 }

/-- A cart whose item set is empty (its last item was just removed). -/
def cartNoItems : Cart :=
  { id := 1, user_id := some 1, session_id := none, status := CS_ACTIVE,
    subtotal := 0, tax_amount := 0, discount_amount := 0, total := 0 }

/-- Store for the empty-item-set totals counterexample. -/
def dbNoItems : DB :=
  { products := [], variations := [], carts := [cartNoItems], cart_items := [],
    orders := [], order_items := [], status_history := [],
    inventory_logs := [], addresses := [], next_id := 2 }

/-- A cart carrying a stored discount of 10. -/
def cartWithDiscount : Cart :=
  { id := 1, user_id := some 1, session_id := none, status := CS_ACTIVE,
    subtotal := 0, tax_amount := 0, discount_amount := 10, total := 0 }

/-- One line of that cart: quantity 1 at a snapshot price of 100. -/
def itemOfDiscountCart : CartItem :=
  { id := 2, cart_id := 1, user_id := some 1, product_id := 5,
    variation_id := none, quantity := 1, unit_price := some 100 }

/-- Store for the discount counterexample. -/
def dbWithDiscount : DB :=
  { products := [{ id := 5, price := 100, stock := 50, is_active := true }],
    variations := [], carts := [cartWithDiscount],
    cart_items := [itemOfDiscountCart], orders := [], order_items := [],
    status_history := [], inventory_logs := [], addresses := [], next_id := 3 }

/-- A cart with one well-formed line for the positive totals witness. -/
def cartTwoUnits : Cart :=
  { id := 1, user_id := some 1, session_id := none, status := CS_ACTIVE,
    subtotal := 0, tax_amount := 0, discount_amount := 0, total := 0 }

/-- Its single line: quantity 2 at a snapshot price of 100. -/
def itemTwoUnits : CartItem :=
  { id := 2, cart_id := 1, user_id := some 1, product_id := 5,
    variation_id := none, quantity := 2, unit_price := some 100 }

/-- Store for the totals witness. -/
def dbTwoUnits : DB :=
  { products := [{ id := 5, price := 100, stock := 50, is_active := true }],
    variations := [], carts := [cartTwoUnits], cart_items := [itemTwoUnits],
    orders := [], order_items := [], status_history := [],
    inventory_logs := [], addresses := [], next_id := 3 }

/-- Sample product with stock 3. -/
def productFive : Product := { id := 5, price := 100, stock := 3, is_active := true }

/-- Sample PENDING order of user 7 created at time 0. -/
def orderPending : Order :=
  { id := 1, user_id := some 7, address_id := some 3, order_number := "ORD-1",
    total_amount := 241, shipping_cost := 5, tax_amount := 36, discount_amount := 0,
    payment_method := "cod", payment_status := PS_PENDING, status := OS_PENDING,
    notes := none, coupon_code := none, created_at := 0,
    cancelled_at := none, cancelled_by := none, cancellation_reason := none }

/-- Its single line: 2 units of product 5. -/
def itemOfOrderPending : OrderItem :=
  { id := 2, order_id := 1, product_id := 5, variation_id := none,
    quantity := 2, price := 100 }

/-- Store with the pending order and its product. -/
def dbPending : DB :=
  { products := [productFive], variations := [], carts := [], cart_items := [],
    orders := [orderPending], order_items := [itemOfOrderPending],
    status_history := [], inventory_logs := [], addresses := [], next_id := 3 }

/-- An order line whose product row no longer exists (product 99). -/
def itemOfMissingProduct : OrderItem :=
  { id := 4, order_id := 1, product_id := 99, variation_id := none,
    quantity := 4, price := 20 }

/-- Store with a pending order holding one line for an existing product and
one line for a vanished product. -/
def dbPendingMissing : DB :=
  { products := [productFive], variations := [], carts := [], cart_items := [],
    orders := [orderPending], order_items := [itemOfOrderPending, itemOfMissingProduct],
    status_history := [], inventory_logs := [], addresses := [], next_id := 5 }

/-- An active cart of user 7. -/
def userCart : Cart :=
  { id := 1, user_id := some 7, session_id := none, status := CS_ACTIVE,
    subtotal := 0, tax_amount := 0, discount_amount := 0, total := 0 }

/-- Its single line: 2 units of product 5 at snapshot price 100. -/
def userCartItem : CartItem :=
  { id := 2, cart_id := 1, user_id := some 7, product_id := 5,
    variation_id := none, quantity := 2, unit_price := some 100 }

/-- A shipping address of user 7. -/
def addressSeven : Address := { id := 3, user_id := 7 }

/-- Store ready for a checkout of user 7. -/
def dbCheckout : DB :=
  { products := [productFive], variations := [], carts := [userCart],
    cart_items := [userCartItem], orders := [], order_items := [],
    status_history := [], inventory_logs := [], addresses := [addressSeven],
    next_id := 10 }

/-- The checkout request against that address. -/
def odCheckout : OrderFromCart :=
  { address_id := 3, payment_method := "cod", notes := none, promo_code := none }

/-- A guest request for 2 units of product 5 (in stock). -/
def guestReqOk : GuestOrderCreate :=
  { guest_name := "Ann", guest_email := "ann@example.com", guest_phone := "111",
    items := [{ product_id := 5, variation_id := none, quantity := 2 }],
    payment_method := "cod" }

/-- A guest request for 9 units of product 5 (stock is only 3). -/
def guestReqShort : GuestOrderCreate :=
  { guest_name := "Bob", guest_email := "bob@example.com", guest_phone := "222",
    items := [{ product_id := 5, variation_id := none, quantity := 9 }],
    payment_method := "cod" }

/-- An inactive product. -/
def productSix : Product := { id := 6, price := 50, stock := 10, is_active := false }

/-- An active product with stock 5. -/
def productSeven : Product := { id := 7, price := 30, stock := 5, is_active := true }

/-- A variation of product 5 that tracks a stock of 1. -/
def variationEleven : ProductVariation := { id := 11, product_id := 5, stock := some 1 }

/-- The cart the add-item witnesses run against. -/
def cartAdd : Cart :=
  { id := 1, user_id := some 7, session_id := none, status := CS_ACTIVE,
    subtotal := 0, tax_amount := 0, discount_amount := 0, total := 0 }

/-- An existing line of 9 units of product 5 in that cart. -/
def bigLine : CartItem :=
  { id := 2, cart_id := 1, user_id := some 7, product_id := 5,
    variation_id := none, quantity := 9, unit_price := some 100 }

/-- Store for the add-item witnesses. -/
def dbAddItem : DB :=
  { products := [productFive, productSix, productSeven],
    variations := [variationEleven], carts := [cartAdd], cart_items := [bigLine],
    orders := [], order_items := [], status_history := [],
    inventory_logs := [], addresses := [], next_id := 20 }

/-- Request naming the inactive product 6. -/
def dAddInactive : CartItemCreate := { product_id := 6, variation_id := none, quantity := 1 }

/-- Request naming an unknown variation of product 5. -/
def dAddBadVar : CartItemCreate := { product_id := 5, variation_id := some 99, quantity := 1 }

/-- Request that would push the existing line of product 5 to 11 units. -/
def dAddLimit : CartItemCreate := { product_id := 5, variation_id := none, quantity := 2 }

/-- Request for 2 units of variation 11, which tracks a stock of 1. -/
def dAddShort : CartItemCreate := { product_id := 5, variation_id := some 11, quantity := 2 }

/-- Request for 2 units of product 7, which succeeds as a new line. -/
def dAddOk : CartItemCreate := { product_id := 7, variation_id := none, quantity := 2 }

/-! # Theorems -/

/-- For a non-negative subtotal the shipping branch of _update_cart_totals
computes exactly the amended shipping rule. -/
theorem code_shipping_eq_amended (s : Rat) (hnn : 0 ≤ s) :
    (if s < FREE_SHIPPING_THRESHOLD && 0 < s then SHIPPING_COST else 0) =
      claimedShippingAmended s := by
  rw [claimedShippingAmended]
  rcases eq_or_lt_of_le hnn with hz | hp
  · rw [if_neg, if_pos]
    · right
      exact hz.symm
    · simp only [Bool.and_eq_true, decide_eq_true_eq, not_and]
      intro _
      rw [← hz]
      exact lt_irrefl 0
  · by_cases hth : s < FREE_SHIPPING_THRESHOLD
    · rw [if_pos, if_neg]
      · rintro (hge | h0)
        · exact absurd hth (not_lt_of_le hge)
        · exact absurd h0 (ne_of_gt hp)
      · simp only [Bool.and_eq_true, decide_eq_true_eq]
        exact ⟨hth, hp⟩
    · rw [if_neg, if_pos]
      · left
        exact le_of_not_lt hth
      · simp only [Bool.and_eq_true, decide_eq_true_eq, not_and]
        intro h
        exact absurd h hth

/-- Folding additions of mapped values equals the initial value plus the sum
of the mapped list. -/
theorem foldl_add_map_sum {α : Type} (f : α → Rat) :
    ∀ (l : List α) (a : Rat), l.foldl (fun acc x => acc + f x) a = a + (l.map f).sum
  | [], a => by simp
  | x :: xs, a => by
    rw [List.foldl_cons, foldl_add_map_sum f xs (a + f x)]
    simp [add_assoc]

/-- The transition lists hard-coded in _get_valid_status_transitions coincide
with the section 4.3 table on every pair of order statuses. -/
theorem code_transition_table_matches_spec :
    ∀ f ∈ allOrderStatuses, ∀ t ∈ allOrderStatuses,
      (get_valid_status_transitions f).contains t = specAllowsTransition f t := by
  decide

/-- C2: calling update_order_status with a target status such that the pair
(current, target) is outside the section 4.3 table fails with the
InvalidTransition error and returns the store exactly as it was: status,
timestamp fields and status history are untouched. -/
theorem update_status_rejects_off_table_transitions
    (db : DB) (orderId : Nat) (order : Order) (t : String)
    (admin_id : Option Nat) (notes : Option String)
    (hfind : db.orders.find? (fun o => o.id == orderId) = some order)
    (hf : order.status ∈ allOrderStatuses) (ht : t ∈ allOrderStatuses)
    (hno : specAllowsTransition order.status t = false) :
    update_order_status db orderId t admin_id notes =
      (db, .error (.invalidTransition order.status t)) := by
  have hc : (get_valid_status_transitions order.status).contains t = false := by
    rw [code_transition_table_matches_spec order.status hf t ht, hno]
  have hnm : t ∉ get_valid_status_transitions order.status := by simpa using hc
  simp [update_order_status, hfind, hc, hnm]

/-- Witness for C2: a DELIVERED order cannot go back to PENDING and the store
is returned unchanged. -/
theorem update_status_rejects_off_table_transitions_witness :
    update_order_status dbDelivered 1 OS_PENDING none none =
      (dbDelivered, .error (.invalidTransition OS_DELIVERED OS_PENDING)) := by
  exact update_status_rejects_off_table_transitions dbDelivered 1 orderDelivered
    OS_PENDING none none (by decide) (by decide) (by decide) (by decide)

/-- C5 (code_bug evidence): with one unit of stock and two concurrent
one-unit reservation attempts interleaved read-read-write-write, the
unlocked read-check-write of _reserve_stock lets both sessions observe
sufficient stock and both commit: both succeed, two units are sold, and the
final stock is 0 - the spec requires exactly one success when the combined
quantity 1 + 1 exceeds the available 1. -/
theorem concurrent_reserve_oversells :
    twoSessionReserve 1 1 1 = (true, true, 0) ∧ (1 + 1 : Int) > 1 := by
  decide

/-- C7 counterexample: on a cart whose item set is empty the recomputed
total is 0, while the claimed formula (flat-fee shipping whenever the
subtotal is below the threshold) demands a 5000 total: the code zeroes
shipping for an empty subtotal, the claim does not. -/
theorem cart_totals_claim_counterexample :
    (updateCartTotalsRow dbNoItems cartNoItems).total ≠
      claimedCartTotal (updateCartTotalsRow dbNoItems cartNoItems).subtotal
        cartNoItems.discount_amount := by
  norm_num [updateCartTotalsRow, cartItemsSubtotal, DB.itemsOfCart, dbNoItems,
    cartNoItems, claimedCartTotal, claimedShipping, FREE_SHIPPING_THRESHOLD,
    SHIPPING_COST, TAX_RATE]

/-- C7 amended: for a cart whose items all carry a positive unit-price
snapshot, the recomputed subtotal is the sum of unit_price times quantity,
tax is subtotal times 0.18, the total is subtotal + tax + shipping -
discount_amount where shipping is 0 when the subtotal reaches the
free-shipping threshold or is zero and the 5000 flat fee otherwise, and
recomputing on the unchanged item set is idempotent. -/
theorem cart_totals_algorithm_amended (db : DB) (cart : Cart)
    (hsnap : ∀ it ∈ db.itemsOfCart cart.id, ∃ p, it.unit_price = some p ∧ 0 < p) :
    (updateCartTotalsRow db cart).subtotal =
      ((db.itemsOfCart cart.id).map
        (fun it => it.unit_price.getD 0 * (it.quantity : Rat))).sum ∧
    (updateCartTotalsRow db cart).tax_amount =
      (updateCartTotalsRow db cart).subtotal * TAX_RATE ∧
    (updateCartTotalsRow db cart).total =
      (updateCartTotalsRow db cart).subtotal +
      (updateCartTotalsRow db cart).tax_amount +
      claimedShippingAmended (updateCartTotalsRow db cart).subtotal -
      cart.discount_amount ∧
    updateCartTotalsRow db (updateCartTotalsRow db cart) = updateCartTotalsRow db cart := by
  have hprice : ∀ it ∈ db.itemsOfCart cart.id,
      effectiveUnitPrice db it = it.unit_price.getD 0 := by
    intro it hit
    obtain ⟨p, hp, hppos⟩ := hsnap it hit
    have hne : (p == (0 : Rat)) = false := by
      simp [beq_iff_eq]
      exact ne_of_gt hppos
    simp [effectiveUnitPrice, hp, hne]
  have hsub : cartItemsSubtotal db (db.itemsOfCart cart.id) =
      ((db.itemsOfCart cart.id).map
        (fun it => it.unit_price.getD 0 * (it.quantity : Rat))).sum := by
    rw [cartItemsSubtotal, foldl_add_map_sum, zero_add]
    congr 1
    exact List.map_congr_left (fun it hit => by rw [hprice it hit])
  have hnn : 0 ≤ cartItemsSubtotal db (db.itemsOfCart cart.id) := by
    rw [hsub]
    apply List.sum_nonneg
    intro x hx
    simp only [List.mem_map] at hx
    obtain ⟨it, hit, hx⟩ := hx
    obtain ⟨p, hp, hppos⟩ := hsnap it hit
    rw [← hx, hp]
    have : (0 : Rat) ≤ p := le_of_lt hppos
    positivity
  refine ⟨by simpa [updateCartTotalsRow] using hsub, by simp [updateCartTotalsRow], ?_, rfl⟩
  have hship := code_shipping_eq_amended (cartItemsSubtotal db (db.itemsOfCart cart.id)) hnn
  simp only [updateCartTotalsRow]
  rw [hship]

/-- Witness for C7 amended: one line of 2 units at snapshot price 100. -/
theorem cart_totals_algorithm_amended_witness :
    (updateCartTotalsRow dbTwoUnits cartTwoUnits).subtotal =
      ((dbTwoUnits.itemsOfCart cartTwoUnits.id).map
        (fun it => it.unit_price.getD 0 * (it.quantity : Rat))).sum ∧
    (updateCartTotalsRow dbTwoUnits cartTwoUnits).tax_amount =
      (updateCartTotalsRow dbTwoUnits cartTwoUnits).subtotal * TAX_RATE ∧
    (updateCartTotalsRow dbTwoUnits cartTwoUnits).total =
      (updateCartTotalsRow dbTwoUnits cartTwoUnits).subtotal +
      (updateCartTotalsRow dbTwoUnits cartTwoUnits).tax_amount +
      claimedShippingAmended (updateCartTotalsRow dbTwoUnits cartTwoUnits).subtotal -
      cartTwoUnits.discount_amount ∧
    updateCartTotalsRow dbTwoUnits (updateCartTotalsRow dbTwoUnits cartTwoUnits) =
      updateCartTotalsRow dbTwoUnits cartTwoUnits := by
  refine cart_totals_algorithm_amended dbTwoUnits cartTwoUnits ?_
  intro it hit
  simp [DB.itemsOfCart, dbTwoUnits, cartTwoUnits, itemTwoUnits] at hit
  subst hit
  exact ⟨100, rfl, by norm_num⟩

/-- C6 counterexample: with a stored cart discount of 10 and one 100-priced
unit in the cart, the cart total is 5108 while the order engine computes
5118 - the order totals drop the discount, so the amount charged is not the
amount the cart displayed. -/
theorem order_totals_claim_counterexample :
    (calculate_order_totals dbWithDiscount (dbWithDiscount.itemsOfCart cartWithDiscount.id)).total ≠
      (updateCartTotalsRow dbWithDiscount cartWithDiscount).total := by
  norm_num [calculate_order_totals, updateCartTotalsRow, cartItemsSubtotal,
    DB.itemsOfCart, dbWithDiscount, cartWithDiscount, itemOfDiscountCart,
    effectiveUnitPrice, FREE_SHIPPING_THRESHOLD, SHIPPING_COST, TAX_RATE]

/-- C6 amended: the subtotal and tax computed by the order engine always
equal those of the cart recomputation; when the stored discount is zero and
the subtotal is positive the totals (and hence shipping) agree as well.
The two paths diverge exactly when the cart carries a non-zero discount
(dropped by the order side) or a zero subtotal (shipped free by the cart
side only). -/
theorem order_totals_match_cart_totals_amended (db : DB) (cart : Cart) :
    (calculate_order_totals db (db.itemsOfCart cart.id)).subtotal =
      (updateCartTotalsRow db cart).subtotal ∧
    (calculate_order_totals db (db.itemsOfCart cart.id)).tax =
      (updateCartTotalsRow db cart).tax_amount ∧
    (cart.discount_amount = 0 → 0 < (updateCartTotalsRow db cart).subtotal →
      (calculate_order_totals db (db.itemsOfCart cart.id)).total =
        (updateCartTotalsRow db cart).total) := by
  refine ⟨rfl, rfl, ?_⟩
  intro hd hpos
  have hpos' : 0 < cartItemsSubtotal db (db.itemsOfCart cart.id) := by
    simpa [updateCartTotalsRow] using hpos
  rw [cartItemsSubtotal] at hpos'
  simp only [calculate_order_totals, updateCartTotalsRow, cartItemsSubtotal, hd]
  by_cases hth : List.foldl (fun acc it => acc + effectiveUnitPrice db it * (it.quantity : Rat)) 0
      (db.itemsOfCart cart.id) < FREE_SHIPPING_THRESHOLD
  · simp [hth, hpos']
  · simp [hth]

/-- Witness for C6 amended: with a zero discount and a positive subtotal the
order engine and the cart recomputation agree on the total (and always on
the subtotal). -/
theorem order_totals_match_cart_totals_amended_witness :
    (calculate_order_totals dbTwoUnits (dbTwoUnits.itemsOfCart cartTwoUnits.id)).total =
      (updateCartTotalsRow dbTwoUnits cartTwoUnits).total ∧
    (calculate_order_totals dbTwoUnits (dbTwoUnits.itemsOfCart cartTwoUnits.id)).subtotal =
      (updateCartTotalsRow dbTwoUnits cartTwoUnits).subtotal := by
  have h := order_totals_match_cart_totals_amended dbTwoUnits cartTwoUnits
  refine ⟨h.2.2 rfl ?_, h.1⟩
  norm_num [updateCartTotalsRow, cartItemsSubtotal, DB.itemsOfCart, dbTwoUnits,
    cartTwoUnits, itemTwoUnits, effectiveUnitPrice]

/-- Looking a product up after setStock: the row found is the row found
before, with its stock replaced when its id matches. -/
theorem findProduct_setStock (ps : List Product) (pid0 : Nat) (s : Int) (pid : Nat) :
    (setStock ps pid0 s).find? (fun p => p.id == pid) =
      (ps.find? (fun p => p.id == pid)).map
        (fun p => if p.id == pid0 then { p with stock := s } else p) := by
  induction ps with
  | nil => simp [setStock]
  | cons p ps ih =>
    have hid : (if p.id == pid0 then { p with stock := s } else p).id = p.id := by
      by_cases h0 : (p.id == pid0) = true <;> simp [h0]
    cases hb : (p.id == pid) with
    | true =>
      rw [setStock, List.map_cons, List.find?_cons_of_pos, List.find?_cons_of_pos]
      · simp
      · exact hb
      · rw [hid]
        exact hb
    | false =>
      rw [setStock, List.map_cons, List.find?_cons_of_neg, List.find?_cons_of_neg]
      · exact ih
      · exact by simp [hb]
      · rw [hid, hb]
        simp

/-- release_stock seen through findProduct: a no-op when the released
product is absent, else the found row gains the released quantity when it is
that product and is unchanged otherwise. -/
theorem findProduct_release_stock (db : DB) (pid0 : Nat) (q : Nat) (oid : Nat) (pid : Nat) :
    findProduct (release_stock db pid0 q oid) pid =
      match findProduct db pid0 with
      | none => findProduct db pid
      | some p0 =>
        (findProduct db pid).map
          (fun p => if p.id == pid0 then { p with stock := p0.stock + (q : Int) } else p) := by
  rw [release_stock]
  cases h0 : findProduct db pid0 with
  | none => simp
  | some p0 => simpa [findProduct] using findProduct_setStock db.products pid0 (p0.stock + (q : Int)) pid

/-- orderQty unfolds over a cons cell. -/
theorem orderQty_cons (it : OrderItem) (rest : List OrderItem) (pid : Nat) :
    orderQty (it :: rest) pid =
      (if it.product_id == pid then it.quantity else 0) + orderQty rest pid := by
  by_cases h : (it.product_id == pid) = true <;> simp [orderQty, h]

/-- A product present before releaseItems is present afterwards with exactly
the summed released quantity added to its stock. -/
theorem stock_after_releaseItems (oid : Nat) :
    ∀ (items : List OrderItem) (db : DB) (pid : Nat) (p : Product),
      findProduct db pid = some p →
      findProduct (releaseItems db oid items) pid =
        some { p with stock := p.stock + (orderQty items pid : Int) }
  | [], db, pid, p, h => by simp [releaseItems, orderQty, h]
  | it :: rest, db, pid, p, h => by
    have hfind : db.products.find? (fun x => x.id == pid) = some p := h
    have hp := List.find?_some hfind
    have hpidp : p.id = pid := beq_iff_eq.mp hp
    rw [releaseItems, List.foldl_cons,
      show List.foldl (fun acc x => release_stock acc x.product_id x.quantity oid)
        (release_stock db it.product_id it.quantity oid) rest =
        releaseItems (release_stock db it.product_id it.quantity oid) oid rest from rfl]
    by_cases hq : it.product_id = pid
    · have h0 : findProduct db it.product_id = some p := by rw [hq]; exact h
      have hmid : findProduct (release_stock db it.product_id it.quantity oid) pid =
          some { p with stock := p.stock + (it.quantity : Int) } := by
        rw [findProduct_release_stock, h0, h]
        simp [hpidp, hq]
      rw [stock_after_releaseItems oid rest _ pid _ hmid, orderQty_cons]
      have hqb : (it.product_id == pid) = true := beq_iff_eq.mpr hq
      simp only [hqb, if_true]
      simp only [Option.some.injEq]
      congr 1
      push_cast
      ring
    · have hqb : (it.product_id == pid) = false := by simp [hq]
      have hmid : findProduct (release_stock db it.product_id it.quantity oid) pid = some p := by
        rw [findProduct_release_stock]
        cases h0 : findProduct db it.product_id with
        | none => exact h
        | some p0 =>
          rw [h]
          have hne : (p.id == it.product_id) = false := by
            simp only [hpidp, beq_eq_false_iff_ne, ne_eq]
            exact fun hh => hq hh.symm
          simp [hne]
          intro hh
          exact absurd (hpidp.symm.trans hh) fun hh2 => hq hh2.symm
      rw [stock_after_releaseItems oid rest _ pid _ hmid, orderQty_cons, hqb]
      simp

/-- release_stock only ever touches the products and inventory_logs tables. -/
theorem release_stock_fields (db : DB) (pid : Nat) (q : Nat) (oid : Nat) :
    (release_stock db pid q oid).carts = db.carts ∧
    (release_stock db pid q oid).orders = db.orders ∧
    (release_stock db pid q oid).order_items = db.order_items ∧
    (release_stock db pid q oid).status_history = db.status_history ∧
    (release_stock db pid q oid).cart_items = db.cart_items ∧
    (release_stock db pid q oid).addresses = db.addresses ∧
    (release_stock db pid q oid).variations = db.variations ∧
    (release_stock db pid q oid).next_id = db.next_id := by
  rw [release_stock]
  cases findProduct db pid <;> simp

/-- The whole release loop only ever touches products and inventory_logs. -/
theorem releaseItems_fields (oid : Nat) :
    ∀ (items : List OrderItem) (db : DB),
      (releaseItems db oid items).carts = db.carts ∧
      (releaseItems db oid items).orders = db.orders ∧
      (releaseItems db oid items).order_items = db.order_items ∧
      (releaseItems db oid items).status_history = db.status_history ∧
      (releaseItems db oid items).cart_items = db.cart_items ∧
      (releaseItems db oid items).addresses = db.addresses ∧
      (releaseItems db oid items).variations = db.variations ∧
      (releaseItems db oid items).next_id = db.next_id
  | [], db => by simp [releaseItems]
  | it :: rest, db => by
    rw [releaseItems, List.foldl_cons,
      show List.foldl (fun acc x => release_stock acc x.product_id x.quantity oid)
        (release_stock db it.product_id it.quantity oid) rest =
        releaseItems (release_stock db it.product_id it.quantity oid) oid rest from rfl]
    have h1 := release_stock_fields db it.product_id it.quantity oid
    have h2 := releaseItems_fields oid rest (release_stock db it.product_id it.quantity oid)
    exact ⟨h2.1.trans h1.1, h2.2.1.trans h1.2.1, h2.2.2.1.trans h1.2.2.1,
      h2.2.2.2.1.trans h1.2.2.2.1, h2.2.2.2.2.1.trans h1.2.2.2.2.1,
      h2.2.2.2.2.2.1.trans h1.2.2.2.2.2.1, h2.2.2.2.2.2.2.1.trans h1.2.2.2.2.2.2.1,
      h2.2.2.2.2.2.2.2.trans h1.2.2.2.2.2.2.2⟩

/-- For a product absent from the store, the release loop adds no ledger
entry for it and it stays absent: compensation for that line is silently
skipped. -/
theorem releaseItems_missing_product (oid pid : Nat) :
    ∀ (items : List OrderItem) (db : DB), findProduct db pid = none →
      ((releaseItems db oid items).inventory_logs.filter (fun l => l.product_id == pid)) =
        db.inventory_logs.filter (fun l => l.product_id == pid) ∧
      findProduct (releaseItems db oid items) pid = none
  | [], db, h => by simp [releaseItems, h]
  | it :: rest, db, h => by
    rw [releaseItems, List.foldl_cons,
      show List.foldl (fun acc x => release_stock acc x.product_id x.quantity oid)
        (release_stock db it.product_id it.quantity oid) rest =
        releaseItems (release_stock db it.product_id it.quantity oid) oid rest from rfl]
    have hstep1 : findProduct (release_stock db it.product_id it.quantity oid) pid = none := by
      rw [findProduct_release_stock]
      cases h0 : findProduct db it.product_id with
      | none => exact h
      | some p0 => rw [h]; rfl
    have hstep2 :
        (release_stock db it.product_id it.quantity oid).inventory_logs.filter
            (fun l => l.product_id == pid) =
          db.inventory_logs.filter (fun l => l.product_id == pid) := by
      rw [release_stock]
      cases h0 : findProduct db it.product_id with
      | none => rfl
      | some p0 =>
        have hne : (it.product_id == pid) = false := by
          cases hq : (it.product_id == pid) with
          | false => rfl
          | true =>
            rw [beq_iff_eq.mp hq] at h0
            rw [h0] at h
            exact absurd h (by simp)
        simp [List.filter_append, hne]
    have ih := releaseItems_missing_product oid pid rest
      (release_stock db it.product_id it.quantity oid) hstep1
    exact ⟨ih.1.trans hstep2, ih.2⟩

/-- C9: for an actor entitled to reach the status checks (admin, or the
owner of the order), cancel_order fails with NotCancellable - store
untouched - whenever the status is outside PENDING/CONFIRMED/PROCESSING;
a non-admin owner is further refused with WindowExpired - store untouched -
once more than 24 hours have passed since creation; an admin cancelling a
cancellable order always succeeds, however old the order, and every stored
product gets the summed quantities of the order lines that reference it
added back to its stock. -/
theorem cancel_order_guards_and_admin_override
    (db : DB) (now : Int) (orderId userId : Nat) (reason : Option String)
    (is_admin : Bool) (order : Order)
    (hfind : db.orders.find? (fun o => o.id == orderId) = some order)
    (hown : is_admin = true ∨ order.user_id = some userId) :
    (order.is_cancellable = false →
      cancel_order db now orderId userId reason is_admin =
        (db, .error (.notCancellable order.status))) ∧
    (is_admin = false → order.is_cancellable = true →
      cancellationWindowExpired now order.created_at = true →
      cancel_order db now orderId userId reason is_admin = (db, .error .windowExpired)) ∧
    (is_admin = true → order.is_cancellable = true →
      ((cancel_order db now orderId userId reason is_admin).2.isOk = true ∧
        ∀ pid p, findProduct db pid = some p →
          stockOf (cancel_order db now orderId userId reason is_admin).1 pid =
            some (p.stock + (orderQty (db.itemsOfOrder orderId) pid : Int)))) := by
  have hguard1 : (!is_admin && !(order.user_id == some userId)) = false := by
    rcases hown with h | h
    · rw [h]
      rfl
    · rw [h]
      simp
  refine ⟨?_, ?_, ?_⟩
  · intro hnc
    simp [cancel_order, hfind, hguard1, hnc]
  · intro hadm hcanc hwin
    have huser : order.user_id = some userId := by
      rcases hown with h | h
      · rw [hadm] at h
        exact absurd h (by simp)
      · exact h
    simp [cancel_order, hfind, hadm, huser, hcanc, hwin]
  · intro hadm hcanc
    have hres : cancel_order db now orderId userId reason is_admin =
        (record_status_change
          ((releaseItems db orderId (db.itemsOfOrder orderId)).updateOrder
            { order with
              status := OS_CANCELLED
              cancelled_at := some now
              cancelled_by := some userId
              cancellation_reason := reason })
          orderId (some order.status) OS_CANCELLED (some userId) reason,
         .ok { order with
               status := OS_CANCELLED
               cancelled_at := some now
               cancelled_by := some userId
               cancellation_reason := reason }) := by
      simp [cancel_order, hfind, hguard1, hcanc, hadm]
    refine ⟨by rw [hres]; rfl, ?_⟩
    intro pid p hp
    rw [hres]
    have hrel := stock_after_releaseItems orderId (db.itemsOfOrder orderId) db pid p hp
    have hsame : stockOf (record_status_change
          ((releaseItems db orderId (db.itemsOfOrder orderId)).updateOrder
            { order with
              status := OS_CANCELLED
              cancelled_at := some now
              cancelled_by := some userId
              cancellation_reason := reason })
          orderId (some order.status) OS_CANCELLED (some userId) reason) pid =
        stockOf (releaseItems db orderId (db.itemsOfOrder orderId)) pid := rfl
    rw [hsame, stockOf, hrel]
    rfl

/-- Witness for C9: a DELIVERED order is refused as not cancellable; a
25-hour-old PENDING order is refused for a non-admin owner with
WindowExpired; an admin cancels that same order and the 2 reserved units
come back, stock 3 to 5. -/
theorem cancel_order_guards_and_admin_override_witness :
    cancel_order dbDelivered 90000 1 7 none false =
      (dbDelivered, .error (.notCancellable OS_DELIVERED)) ∧
    cancel_order dbPending 90000 1 7 none false = (dbPending, .error .windowExpired) ∧
    ((cancel_order dbPending 90000 1 7 none true).2.isOk = true ∧
      stockOf (cancel_order dbPending 90000 1 7 none true).1 5 = some 5) := by
  have h1 := cancel_order_guards_and_admin_override dbDelivered 90000 1 7 none false
    orderDelivered (by decide) (Or.inr rfl)
  have h2 := cancel_order_guards_and_admin_override dbPending 90000 1 7 none false
    orderPending (by decide) (Or.inr rfl)
  have h3 := cancel_order_guards_and_admin_override dbPending 90000 1 7 none true
    orderPending (by decide) (Or.inl rfl)
  refine ⟨h1.1 (by decide), h2.2.1 rfl (by decide) (by decide), ?_⟩
  have h3c := h3.2.2 rfl (by decide)
  refine ⟨h3c.1, ?_⟩
  have hst := h3c.2 5 productFive (by decide)
  rw [hst]
  decide

/-- C10: when a cancellable order (actor entitled to cancel it) holds a line
whose product row no longer exists, cancel_order still succeeds - the order
becomes CANCELLED with cancellation metadata and one history row is
appended - but no ledger entry for the vanished product is written and its
stock is not restored: the compensation for that line is silently skipped. -/
theorem cancel_order_skips_missing_product
    (db : DB) (now : Int) (orderId userId : Nat) (reason : Option String)
    (is_admin : Bool) (order : Order) (it0 : OrderItem)
    (hfind : db.orders.find? (fun o => o.id == orderId) = some order)
    (hown : is_admin = true ∨ order.user_id = some userId)
    (hwin : is_admin = true ∨ cancellationWindowExpired now order.created_at = false)
    (hcanc : order.is_cancellable = true)
    (hit : it0 ∈ db.itemsOfOrder orderId)
    (hmiss : findProduct db it0.product_id = none) :
    (cancel_order db now orderId userId reason is_admin).2 =
      .ok { order with
            status := OS_CANCELLED
            cancelled_at := some now
            cancelled_by := some userId
            cancellation_reason := reason } ∧
    (cancel_order db now orderId userId reason is_admin).1.status_history =
      db.status_history ++
        [{ order_id := orderId, from_status := some order.status,
           to_status := OS_CANCELLED, changed_by := some userId, notes := reason }] ∧
    ((cancel_order db now orderId userId reason is_admin).1.inventory_logs.filter
        (fun l => l.product_id == it0.product_id)) =
      db.inventory_logs.filter (fun l => l.product_id == it0.product_id) ∧
    findProduct (cancel_order db now orderId userId reason is_admin).1 it0.product_id = none := by
  have hguard1 : (!is_admin && !(order.user_id == some userId)) = false := by
    rcases hown with h | h
    · rw [h]
      rfl
    · rw [h]
      simp
  have hguard2 : (!is_admin && cancellationWindowExpired now order.created_at) = false := by
    rcases hwin with h | h
    · rw [h]
      rfl
    · rw [h]
      simp
  have hres : cancel_order db now orderId userId reason is_admin =
      (record_status_change
        ((releaseItems db orderId (db.itemsOfOrder orderId)).updateOrder
          { order with
            status := OS_CANCELLED
            cancelled_at := some now
            cancelled_by := some userId
            cancellation_reason := reason })
        orderId (some order.status) OS_CANCELLED (some userId) reason,
       .ok { order with
             status := OS_CANCELLED
             cancelled_at := some now
             cancelled_by := some userId
             cancellation_reason := reason }) := by
    simp [cancel_order, hfind, hguard1, hguard2, hcanc]
  have hmp := releaseItems_missing_product orderId it0.product_id
    (db.itemsOfOrder orderId) db hmiss
  have hfields := releaseItems_fields orderId (db.itemsOfOrder orderId) db
  refine ⟨by rw [hres], ?_, ?_, ?_⟩
  · rw [hres]
    show (releaseItems db orderId (db.itemsOfOrder orderId)).status_history ++ _ = _
    rw [hfields.2.2.2.1]
  · rw [hres]
    exact hmp.1
  · rw [hres]
    exact hmp.2

/-- Witness for C10: an admin cancels a pending order holding a line for
vanished product 99; the cancel succeeds with metadata and history, yet the
ledger has no entry for product 99 and product 99 stays absent. -/
theorem cancel_order_skips_missing_product_witness :
    (cancel_order dbPendingMissing 50 1 7 none true).2 =
      .ok { orderPending with
            status := OS_CANCELLED
            cancelled_at := some 50
            cancelled_by := some 7
            cancellation_reason := none } ∧
    (cancel_order dbPendingMissing 50 1 7 none true).1.status_history =
      dbPendingMissing.status_history ++
        [{ order_id := 1, from_status := some orderPending.status,
           to_status := OS_CANCELLED, changed_by := some 7, notes := none }] ∧
    ((cancel_order dbPendingMissing 50 1 7 none true).1.inventory_logs.filter
        (fun l => l.product_id == 99)) =
      dbPendingMissing.inventory_logs.filter (fun l => l.product_id == 99) ∧
    findProduct (cancel_order dbPendingMissing 50 1 7 none true).1 99 = none := by
  exact cancel_order_skips_missing_product dbPendingMissing 50 1 7 none true
    orderPending itemOfMissingProduct (by decide) (Or.inl rfl) (Or.inl rfl)
    (by decide) (by decide) (by decide)

/-- cartQty unfolds over a cons cell. -/
theorem cartQty_cons (it : CartItem) (rest : List CartItem) (pid : Nat) :
    cartQty (it :: rest) pid =
      (if it.product_id == pid then it.quantity else 0) + cartQty rest pid := by
  by_cases h : (it.product_id == pid) = true <;> simp [cartQty, h]

/-- find? skips a prefix on which the predicate never fires. -/
theorem find?_append_of_none {α : Type} (p : α → Bool) :
    ∀ (l1 l2 : List α), l1.find? p = none → (l1 ++ l2).find? p = l2.find? p
  | [], l2, _ => rfl
  | x :: xs, l2, h => by
    have hx : p x = false := by
      cases hp : p x with
      | false => rfl
      | true => rw [List.find?_cons_of_pos _ hp] at h; exact absurd h (by simp)
    rw [List.find?_cons_of_neg _ (by simp [hx])] at h
    rw [List.cons_append, List.find?_cons_of_neg _ (by simp [hx])]
    exact find?_append_of_none p xs l2 h

/-- Inverting a successful _reserve_stock call. -/
theorem reserve_stock_ok_elim (db : DB) (it : CartItem) (oid : Nat) (db' : DB)
    (h : reserve_stock db it oid = .ok db') :
    ∃ p, findProduct db it.product_id = some p ∧ ¬ (p.stock < (it.quantity : Int)) ∧
      db' = { db with
        products := setStock db.products it.product_id (p.stock - (it.quantity : Int))
        inventory_logs := db.inventory_logs ++
          [{ product_id := it.product_id
             change_quantity := -(it.quantity : Int)
             new_stock := p.stock - (it.quantity : Int)
             reason := "order_placed"
             order_id := some oid
             admin_id := none }] } := by
  rw [reserve_stock] at h
  cases hf : findProduct db it.product_id with
  | none =>
    rw [hf] at h
    exact absurd h (by simp)
  | some p =>
    simp only [hf] at h
    by_cases hs : p.stock < (it.quantity : Int)
    · rw [if_pos hs] at h
      exact absurd h (by simp)
    · rw [if_neg hs] at h
      exact ⟨p, rfl, hs, (Except.ok.inj h).symm⟩

/-- Inverting a successful _reserve_stock_direct call. -/
theorem reserve_stock_direct_ok_elim (db : DB) (pid q oid : Nat) (db' : DB)
    (h : reserve_stock_direct db pid q oid = .ok db') :
    ∃ p, findProduct db pid = some p ∧ ¬ (p.stock < (q : Int)) ∧
      db' = { db with
        products := setStock db.products pid (p.stock - (q : Int))
        inventory_logs := db.inventory_logs ++
          [{ product_id := pid
             change_quantity := -(q : Int)
             new_stock := p.stock - (q : Int)
             reason := "order_placed"
             order_id := some oid
             admin_id := none }] } := by
  rw [reserve_stock_direct] at h
  cases hf : findProduct db pid with
  | none =>
    rw [hf] at h
    exact absurd h (by simp)
  | some p =>
    simp only [hf] at h
    by_cases hs : p.stock < (q : Int)
    · rw [if_pos hs] at h
      exact absurd h (by simp)
    · rw [if_neg hs] at h
      exact ⟨p, rfl, hs, (Except.ok.inj h).symm⟩

/-- Inverting a successful run of the order-item/reservation loop of
create_order_from_cart: every table except order_items, inventory_logs,
products and next_id is untouched; one OrderItem row per cart line is
appended, carrying the same product and quantity and the new order id; one
ledger entry per cart line is appended with change_quantity minus the line
quantity; every stored product loses exactly the summed reserved quantity;
absent products stay absent; every processed line had an existing product
row. -/
theorem insertItemsAndReserve_ok (oid : Nat) :
    ∀ (items : List CartItem) (db db' : DB),
      insertItemsAndReserve db oid items = .ok db' →
      db'.carts = db.carts ∧
      db'.orders = db.orders ∧
      db'.cart_items = db.cart_items ∧
      db'.status_history = db.status_history ∧
      db'.addresses = db.addresses ∧
      db'.variations = db.variations ∧
      (∃ L, db'.order_items = db.order_items ++ L ∧
        L.map orderLine = items.map cartLine ∧
        ∀ oi ∈ L, oi.order_id = oid) ∧
      (∃ M, db'.inventory_logs = db.inventory_logs ++ M ∧
        M.map logLine = items.map (fun it =>
          (it.product_id, -(it.quantity : Int), "order_placed", some oid))) ∧
      (∀ pid p, findProduct db pid = some p →
        findProduct db' pid = some { p with stock := p.stock - (cartQty items pid : Int) }) ∧
      (∀ pid, findProduct db pid = none → findProduct db' pid = none) ∧
      (∀ it ∈ items, ∃ p, findProduct db it.product_id = some p) ∧
      db.next_id ≤ db'.next_id
  | [], db, db', h => by
    have hdb : db = db' := Except.ok.inj h
    subst hdb
    refine ⟨rfl, rfl, rfl, rfl, rfl, rfl, ⟨[], by simp, by simp, by simp⟩,
      ⟨[], by simp, by simp⟩, ?_, fun pid h => h, by simp, le_refl _⟩
    intro pid p hp
    simp [cartQty, hp]
  | it :: rest, db, db', h => by
    rw [insertItemsAndReserve] at h
    cases hr : reserve_stock
        { db with
          order_items := db.order_items ++ [create_order_item db oid it db.next_id]
          next_id := db.next_id + 1 } it oid with
    | error e =>
      rw [hr] at h
      exact absurd h (by simp)
    | ok db2 =>
      rw [hr] at h
      obtain ⟨p, hfindp, hge, hdb2⟩ := reserve_stock_ok_elim _ it oid db2 hr
      have hfindp' : findProduct db it.product_id = some p := hfindp
      have ih := insertItemsAndReserve_ok oid rest db2 db' h
      obtain ⟨ihc, iho, ihci, ihh, iha, ihv, ⟨L, ihL, ihLmap, ihLoid⟩,
        ⟨M, ihM, ihMmap⟩, ihstock, ihnone, ihpres, ihnext⟩ := ih
      have hfind2 : ∀ pid pp, findProduct db pid = some pp →
          findProduct db2 pid =
            some (if pp.id == it.product_id
              then { pp with stock := p.stock - (it.quantity : Int) } else pp) := by
        intro pid pp hpp
        rw [hdb2]
        show (setStock db.products it.product_id (p.stock - (it.quantity : Int))).find?
            (fun x => x.id == pid) = _
        rw [findProduct_setStock]
        have : db.products.find? (fun x => x.id == pid) = some pp := hpp
        rw [this]
        rfl
      have hnone2 : ∀ pid, findProduct db pid = none → findProduct db2 pid = none := by
        intro pid hpp
        rw [hdb2]
        show (setStock db.products it.product_id (p.stock - (it.quantity : Int))).find?
            (fun x => x.id == pid) = _
        rw [findProduct_setStock]
        have : db.products.find? (fun x => x.id == pid) = none := hpp
        rw [this]
        rfl
      refine ⟨ihc.trans (by rw [hdb2]), iho.trans (by rw [hdb2]),
        ihci.trans (by rw [hdb2]), ihh.trans (by rw [hdb2]),
        iha.trans (by rw [hdb2]), ihv.trans (by rw [hdb2]), ?_, ?_, ?_, ?_, ?_, ?_⟩
      · refine ⟨create_order_item db oid it db.next_id :: L, ?_, ?_, ?_⟩
        · rw [ihL, hdb2]
          simp
        · simp only [List.map_cons, ihLmap]
          rfl
        · intro oi hoi
          rcases List.mem_cons.mp hoi with h1 | h1
          · rw [h1]
            rfl
          · exact ihLoid oi h1
      · refine ⟨{ product_id := it.product_id
                  change_quantity := -(it.quantity : Int)
                  new_stock := p.stock - (it.quantity : Int)
                  reason := "order_placed"
                  order_id := some oid
                  admin_id := none } :: M, ?_, ?_⟩
        · rw [ihM, hdb2]
          simp
        · simp only [List.map_cons, ihMmap]
          rfl
      · intro pid pp hpp
        have hpidpp : pp.id = pid := by
          have hf : db.products.find? (fun x => x.id == pid) = some pp := hpp
          have hpx := List.find?_some hf
          exact beq_iff_eq.mp hpx
        by_cases hq : it.product_id = pid
        · have hpp_is_p : pp = p := by
            rw [hq] at hfindp'
            exact Option.some.inj ((hpp.symm).trans hfindp')
          have hbeq : (pp.id == it.product_id) = true := beq_iff_eq.mpr (by rw [hpidpp, hq])
          have h2 := hfind2 pid pp hpp
          rw [hbeq, if_pos rfl] at h2
          have h3 := ihstock pid _ h2
          rw [h3, cartQty_cons, beq_iff_eq.mpr hq, if_pos rfl]
          simp only [Option.some.injEq]
          congr 1
          simp only [hpp_is_p]
          push_cast
          ring
        · have hbeq : (pp.id == it.product_id) = false := by
            simp only [beq_eq_false_iff_ne, ne_eq, hpidpp]
            exact fun hh => hq hh.symm
          have h2 := hfind2 pid pp hpp
          rw [hbeq] at h2
          simp only [Bool.false_eq_true, if_false] at h2
          have h3 := ihstock pid _ h2
          rw [h3, cartQty_cons]
          have : (it.product_id == pid) = false := by simp [hq]
          rw [this]
          simp
      · intro pid hpp
        exact ihnone pid (hnone2 pid hpp)
      · intro it2 hit2
        rcases List.mem_cons.mp hit2 with h1 | h1
        · rw [h1]
          exact ⟨p, hfindp'⟩
        · cases hc : findProduct db it2.product_id with
          | some pp => exact ⟨pp, rfl⟩
          | none =>
            obtain ⟨p2, hp2⟩ := ihpres it2 h1
            rw [hnone2 _ hc] at hp2
            exact absurd hp2 (by simp)
      · calc db.next_id ≤ db.next_id + 1 := Nat.le_succ _
          _ = db2.next_id := by rw [hdb2]
          _ ≤ db'.next_id := ihnext

/-- A successful guest-item validation returns one entry per requested item
with the same product id and quantity. -/
theorem validate_items_ok_lines (db : DB) :
    ∀ (items : List OrderItemCreate) (vs : List ValidatedItem) (sub : Rat),
      validate_and_calculate_items db items = .ok (vs, sub) →
      vs.map validatedLine = items.map (fun i => (i.product_id, i.quantity))
  | [], vs, sub, h => by
    rw [validate_and_calculate_items] at h
    have : ([] : List ValidatedItem) = vs := congrArg Prod.fst (Except.ok.inj h)
    rw [← this]
    rfl
  | item :: rest, vs, sub, h => by
    rw [validate_and_calculate_items] at h
    cases hf : findProduct db item.product_id with
    | none =>
      rw [hf] at h
      exact absurd h (by simp)
    | some product =>
      have hfind : db.products.find? (fun x => x.id == item.product_id) = some product := hf
      have hpx := List.find?_some hfind
      have hpid : product.id = item.product_id := beq_iff_eq.mp hpx
      simp only [hf] at h
      by_cases hact : !product.is_active
      · rw [if_pos hact] at h
        exact absurd h (by simp)
      · rw [if_neg hact] at h
        by_cases hs : product.stock < (item.quantity : Int)
        · rw [if_pos hs] at h
          exact absurd h (by simp)
        · rw [if_neg hs] at h
          cases hrec : validate_and_calculate_items db rest with
          | error e =>
            rw [hrec] at h
            exact absurd h (by simp)
          | ok pr =>
            rw [hrec] at h
            have hvs : ({ product_id := product.id,
                          variation_id := item.variation_id,
                          quantity := item.quantity,
                          price := product.price } : ValidatedItem) :: pr.1 = vs :=
              congrArg Prod.fst (Except.ok.inj h)
            rw [← hvs, List.map_cons, List.map_cons,
              validate_items_ok_lines db rest pr.1 pr.2 (by rw [hrec])]
            rw [validatedLine, hpid]

/-- Inverting a successful run of the guest order-item/reservation loop. -/
theorem insertGuestItemsAndReserve_ok (oid : Nat) :
    ∀ (items : List ValidatedItem) (db db' : DB),
      insertGuestItemsAndReserve db oid items = .ok db' →
      db'.carts = db.carts ∧
      db'.orders = db.orders ∧
      db'.cart_items = db.cart_items ∧
      db'.status_history = db.status_history ∧
      db'.addresses = db.addresses ∧
      db'.variations = db.variations ∧
      (∃ L, db'.order_items = db.order_items ++ L ∧
        L.map orderLine = items.map validatedLine ∧
        ∀ oi ∈ L, oi.order_id = oid) ∧
      (∃ M, db'.inventory_logs = db.inventory_logs ++ M ∧
        M.map logLine = items.map (fun v =>
          (v.product_id, -(v.quantity : Int), "order_placed", some oid))) ∧
      (∀ pid p, findProduct db pid = some p →
        findProduct db' pid = some { p with stock := p.stock - (validatedQty items pid : Int) }) ∧
      (∀ pid, findProduct db pid = none → findProduct db' pid = none)
  | [], db, db', h => by
    have hdb : db = db' := Except.ok.inj h
    subst hdb
    refine ⟨rfl, rfl, rfl, rfl, rfl, rfl, ⟨[], by simp, by simp, by simp⟩,
      ⟨[], by simp, by simp⟩, ?_, fun pid h => h⟩
    intro pid p hp
    simp [validatedQty, hp]
  | v :: rest, db, db', h => by
    rw [insertGuestItemsAndReserve] at h
    cases hr : reserve_stock_direct
        { db with
          order_items := db.order_items ++
            [{ id := db.next_id, order_id := oid, product_id := v.product_id,
               variation_id := v.variation_id, quantity := v.quantity, price := v.price }]
          next_id := db.next_id + 1 } v.product_id v.quantity oid with
    | error e =>
      rw [hr] at h
      exact absurd h (by simp)
    | ok db2 =>
      rw [hr] at h
      obtain ⟨p, hfindp, hge, hdb2⟩ := reserve_stock_direct_ok_elim _ v.product_id v.quantity oid db2 hr
      have ih := insertGuestItemsAndReserve_ok oid rest db2 db' h
      obtain ⟨ihc, iho, ihci, ihh, iha, ihv, ⟨L, ihL, ihLmap, ihLoid⟩,
        ⟨M, ihM, ihMmap⟩, ihstock, ihnone⟩ := ih
      have hfind2 : ∀ pid pp, findProduct db pid = some pp →
          findProduct db2 pid =
            some (if pp.id == v.product_id
              then { pp with stock := p.stock - (v.quantity : Int) } else pp) := by
        intro pid pp hpp
        rw [hdb2]
        show (setStock db.products v.product_id (p.stock - (v.quantity : Int))).find?
            (fun x => x.id == pid) = _
        rw [findProduct_setStock]
        have : db.products.find? (fun x => x.id == pid) = some pp := hpp
        rw [this]
        rfl
      have hnone2 : ∀ pid, findProduct db pid = none → findProduct db2 pid = none := by
        intro pid hpp
        rw [hdb2]
        show (setStock db.products v.product_id (p.stock - (v.quantity : Int))).find?
            (fun x => x.id == pid) = _
        rw [findProduct_setStock]
        have : db.products.find? (fun x => x.id == pid) = none := hpp
        rw [this]
        rfl
      refine ⟨ihc.trans (by rw [hdb2]), iho.trans (by rw [hdb2]),
        ihci.trans (by rw [hdb2]), ihh.trans (by rw [hdb2]),
        iha.trans (by rw [hdb2]), ihv.trans (by rw [hdb2]), ?_, ?_, ?_, ?_⟩
      · refine ⟨{ id := db.next_id,
                  order_id := oid,
                  product_id := v.product_id,
                  variation_id := v.variation_id,
                  quantity := v.quantity,
                  price := v.price } :: L, ?_, ?_, ?_⟩
        · rw [ihL, hdb2]
          simp
        · simp only [List.map_cons, ihLmap]
          rfl
        · intro oi hoi
          rcases List.mem_cons.mp hoi with h1 | h1
          · rw [h1]
          · exact ihLoid oi h1
      · refine ⟨{ product_id := v.product_id
                  change_quantity := -(v.quantity : Int)
                  new_stock := p.stock - (v.quantity : Int)
                  reason := "order_placed"
                  order_id := some oid
                  admin_id := none } :: M, ?_, ?_⟩
        · rw [ihM, hdb2]
          simp
        · simp only [List.map_cons, ihMmap]
          rfl
      · intro pid pp hpp
        have hpidpp : pp.id = pid := by
          have hf : db.products.find? (fun x => x.id == pid) = some pp := hpp
          have hpx := List.find?_some hf
          exact beq_iff_eq.mp hpx
        by_cases hq : v.product_id = pid
        · have hpp_is_p : pp = p := by
            rw [hq] at hfindp
            exact Option.some.inj ((hpp.symm).trans hfindp)
          have hbeq : (pp.id == v.product_id) = true := beq_iff_eq.mpr (by rw [hpidpp, hq])
          have h2 := hfind2 pid pp hpp
          rw [hbeq, if_pos rfl] at h2
          have h3 := ihstock pid _ h2
          rw [h3]
          have hvq : validatedQty (v :: rest) pid = v.quantity + validatedQty rest pid := by
            simp [validatedQty, beq_iff_eq.mpr hq]
          rw [hvq]
          simp only [Option.some.injEq]
          congr 1
          simp only [hpp_is_p]
          push_cast
          ring
        · have hbeq : (pp.id == v.product_id) = false := by
            simp only [beq_eq_false_iff_ne, ne_eq, hpidpp]
            exact fun hh => hq hh.symm
          have h2 := hfind2 pid pp hpp
          rw [hbeq] at h2
          simp only [Bool.false_eq_true, if_false] at h2
          have h3 := ihstock pid _ h2
          rw [h3]
          have hvq : validatedQty (v :: rest) pid = validatedQty rest pid := by
            simp [validatedQty, show (v.product_id == pid) = false by simp [hq]]
          rw [hvq]
      · intro pid hpp
        exact ihnone pid (hnone2 pid hpp)

/-- orderQty through the line projection. -/
theorem orderQty_eq_lineQty : ∀ (L : List OrderItem) (pid : Nat),
    orderQty L pid = lineQty (L.map orderLine) pid
  | [], _ => rfl
  | oi :: rest, pid => by
    by_cases h : (oi.product_id == pid) = true <;>
      simp [orderQty, lineQty, orderLine, h, orderQty_eq_lineQty rest pid,
        orderQty, lineQty] <;>
      simpa [orderQty, lineQty] using orderQty_eq_lineQty rest pid

/-- cartQty through the line projection. -/
theorem cartQty_eq_lineQty : ∀ (items : List CartItem) (pid : Nat),
    cartQty items pid = lineQty (items.map cartLine) pid
  | [], _ => rfl
  | it :: rest, pid => by
    by_cases h : (it.product_id == pid) = true <;>
      simp [cartQty, lineQty, cartLine, h] <;>
      simpa [cartQty, lineQty] using cartQty_eq_lineQty rest pid

/-- validatedQty through the line projection. -/
theorem validatedQty_eq_lineQty : ∀ (vs : List ValidatedItem) (pid : Nat),
    validatedQty vs pid = lineQty (vs.map validatedLine) pid
  | [], _ => rfl
  | v :: rest, pid => by
    by_cases h : (v.product_id == pid) = true <;>
      simp [validatedQty, lineQty, validatedLine, h] <;>
      simpa [validatedQty, lineQty] using validatedQty_eq_lineQty rest pid

/-- requestedQty through the line projection. -/
theorem requestedQty_eq_lineQty : ∀ (items : List OrderItemCreate) (pid : Nat),
    requestedQty items pid = lineQty (items.map (fun i => (i.product_id, i.quantity))) pid
  | [], _ => rfl
  | i :: rest, pid => by
    by_cases h : (i.product_id == pid) = true <;>
      simp [requestedQty, lineQty, h] <;>
      simpa [requestedQty, lineQty] using requestedQty_eq_lineQty rest pid

/-- create_order_from_cart either returns the untouched store with an error
(one of the guards fired, or the try block rolled back), or commits the
result of a successful createOrderAttempt. -/
theorem create_order_from_cart_shape (db : DB) (userId : Nat) (od : OrderFromCart) (now : Int) :
    (∃ e, create_order_from_cart db userId od now = (db, .error e)) ∨
    (∃ cart db4 o, get_cart db userId = some cart ∧
      createOrderAttempt db userId cart od now = .ok (db4, o) ∧
      create_order_from_cart db userId od now = (db4, .ok o)) := by
  rw [create_order_from_cart]
  cases hg : get_cart db userId with
  | none => exact Or.inl ⟨.emptyCart, rfl⟩
  | some cart =>
    cases he : (db.itemsOfCart cart.id).isEmpty with
    | true => exact Or.inl ⟨.emptyCart, by simp [he]⟩
    | false =>
      cases hv : (validate_cart_for_checkout db cart).1 with
      | false =>
        exact Or.inl ⟨.validationFailed (validate_cart_for_checkout db cart).2, by simp [he, hv]⟩
      | true =>
        cases hf : db.addresses.find? (fun a => a.id == od.address_id && a.user_id == userId) with
        | none => exact Or.inl ⟨.addressNotFound, by simp [he, hv, hf]⟩
        | some addr =>
          cases ha : createOrderAttempt db userId cart od now with
          | error e => exact Or.inl ⟨.wrapped e, by simp [he, hv, hf, ha]⟩
          | ok pr =>
            exact Or.inr ⟨cart, pr.1, pr.2, rfl, by rw [ha], by simp [he, hv, hf, ha]⟩

/-- Inverting a successful createOrderAttempt. -/
theorem createOrderAttempt_ok_elim (db : DB) (userId : Nat) (cart : Cart)
    (od : OrderFromCart) (now : Int) (db4 : DB) (o : Order)
    (h : createOrderAttempt db userId cart od now = .ok (db4, o)) :
    o.id = db.next_id ∧ o.status = OS_PENDING ∧ o.created_at = now ∧
    ∃ db2, insertItemsAndReserve
        { db with orders := db.orders ++ [o], next_id := db.next_id + 1 }
        o.id (db.itemsOfCart cart.id) = .ok db2 ∧
      db4 = mark_cart_converted
        (record_status_change db2 o.id none OS_PENDING (some userId) none) cart := by
  rw [createOrderAttempt] at h
  cases hi : insertItemsAndReserve
      { db with
        orders := db.orders ++
          [{ id := db.next_id
             user_id := some userId
             address_id := some od.address_id
             order_number := "ORD-" ++ toString db.next_id
             total_amount := (calculate_order_totals db (db.itemsOfCart cart.id)).total
             shipping_cost := (calculate_order_totals db (db.itemsOfCart cart.id)).shipping
             tax_amount := (calculate_order_totals db (db.itemsOfCart cart.id)).tax
             discount_amount := 0
             payment_method := od.payment_method
             payment_status := PS_PENDING
             status := OS_PENDING
             notes := od.notes
             coupon_code := od.promo_code
             created_at := now
             cancelled_at := none
             cancelled_by := none
             cancellation_reason := none }]
        next_id := db.next_id + 1 } db.next_id (db.itemsOfCart cart.id) with
  | error e =>
    rw [hi] at h
    exact absurd h (by simp)
  | ok db2 =>
    rw [hi] at h
    have hpair := Except.ok.inj h
    have ho : o = { id := db.next_id
                    user_id := some userId
                    address_id := some od.address_id
                    order_number := "ORD-" ++ toString db.next_id
                    total_amount := (calculate_order_totals db (db.itemsOfCart cart.id)).total
                    shipping_cost := (calculate_order_totals db (db.itemsOfCart cart.id)).shipping
                    tax_amount := (calculate_order_totals db (db.itemsOfCart cart.id)).tax
                    discount_amount := 0
                    payment_method := od.payment_method
                    payment_status := PS_PENDING
                    status := OS_PENDING
                    notes := od.notes
                    coupon_code := od.promo_code
                    created_at := now
                    cancelled_at := none
                    cancelled_by := none
                    cancellation_reason := none } := (congrArg Prod.snd hpair).symm
    have hdb4 : db4 = mark_cart_converted
        (record_status_change db2 db.next_id none OS_PENDING (some userId) none) cart :=
      (congrArg Prod.fst hpair).symm
    subst ho
    exact ⟨rfl, rfl, rfl, db2, hi, hdb4⟩

/-- create_guest_order either returns the untouched store with an error, or
commits the result of a successful createGuestOrderAttempt. -/
theorem create_guest_order_shape (db : DB) (god : GuestOrderCreate) (now : Int) :
    (∃ e, create_guest_order db god now = (db, .error e)) ∨
    (∃ validated subtotal db4 o,
      validate_and_calculate_items db god.items = .ok (validated, subtotal) ∧
      createGuestOrderAttempt db god validated subtotal now = .ok (db4, o) ∧
      create_guest_order db god now = (db4, .ok o)) := by
  rw [create_guest_order]
  cases hv : validate_and_calculate_items db god.items with
  | error e => exact Or.inl ⟨e, rfl⟩
  | ok pr =>
    cases ha : createGuestOrderAttempt db god pr.1 pr.2 now with
    | error e => exact Or.inl ⟨.wrapped e, by simp [ha]⟩
    | ok pr2 =>
      exact Or.inr ⟨pr.1, pr.2, pr2.1, pr2.2, by simp [hv], by simp [ha], by simp [ha]⟩

/-- Inverting a successful createGuestOrderAttempt. -/
theorem createGuestOrderAttempt_ok_elim (db : DB) (god : GuestOrderCreate)
    (validated : List ValidatedItem) (subtotal : Rat) (now : Int) (db4 : DB) (o : Order)
    (h : createGuestOrderAttempt db god validated subtotal now = .ok (db4, o)) :
    o.id = db.next_id ∧ o.status = OS_PENDING ∧ o.created_at = now ∧
    ∃ db2, insertGuestItemsAndReserve
        { db with orders := db.orders ++ [o], next_id := db.next_id + 1 }
        o.id validated = .ok db2 ∧
      db4 = record_status_change db2 o.id none OS_PENDING none none := by
  rw [createGuestOrderAttempt] at h
  cases hi : insertGuestItemsAndReserve
      { db with
        orders := db.orders ++
          [{ id := db.next_id
             user_id := none
             address_id := none
             order_number := "ORD-" ++ toString db.next_id
             total_amount := subtotal + subtotal * TAX_RATE +
               (if subtotal < FREE_SHIPPING_THRESHOLD then SHIPPING_COST else 0)
             shipping_cost := if subtotal < FREE_SHIPPING_THRESHOLD then SHIPPING_COST else 0
             tax_amount := subtotal * TAX_RATE
             discount_amount := 0
             payment_method := god.payment_method
             payment_status := PS_PENDING
             status := OS_PENDING
             notes := some ("Guest: " ++ god.guest_name ++ " | " ++
               god.guest_email ++ " | " ++ god.guest_phone)
             coupon_code := none
             created_at := now
             cancelled_at := none
             cancelled_by := none
             cancellation_reason := none }]
        next_id := db.next_id + 1 } db.next_id validated with
  | error e =>
    rw [hi] at h
    exact absurd h (by simp)
  | ok db2 =>
    rw [hi] at h
    have hpair := Except.ok.inj h
    have ho : o = { id := db.next_id
                    user_id := none
                    address_id := none
                    order_number := "ORD-" ++ toString db.next_id
                    total_amount := subtotal + subtotal * TAX_RATE +
                      (if subtotal < FREE_SHIPPING_THRESHOLD then SHIPPING_COST else 0)
                    shipping_cost := if subtotal < FREE_SHIPPING_THRESHOLD then SHIPPING_COST else 0
                    tax_amount := subtotal * TAX_RATE
                    discount_amount := 0
                    payment_method := god.payment_method
                    payment_status := PS_PENDING
                    status := OS_PENDING
                    notes := some ("Guest: " ++ god.guest_name ++ " | " ++
                      god.guest_email ++ " | " ++ god.guest_phone)
                    coupon_code := none
                    created_at := now
                    cancelled_at := none
                    cancelled_by := none
                    cancellation_reason := none } := (congrArg Prod.snd hpair).symm
    have hdb4 : db4 = record_status_change db2 db.next_id none OS_PENDING none none :=
      (congrArg Prod.fst hpair).symm
    subst ho
    exact ⟨rfl, rfl, rfl, db2, hi, hdb4⟩

/-- C3: order creation is all-or-nothing.  On any failure the returned store
is exactly the input store (rollback).  On success, for the registered-user
path: the new PENDING order row is appended, one OrderItem per cart line is
appended carrying the same product and quantity and the new order id, one
order_placed ledger entry per cart line is appended, every stored product
loses exactly the summed reserved quantity, absent products stay absent and
the active cart is marked CONVERTED - all in the same committed state.  The
guest path commits the same shape against the requested item list. -/
theorem create_order_atomicity (db : DB) (userId : Nat) (od : OrderFromCart)
    (god : GuestOrderCreate) (now : Int) :
    ((create_order_from_cart db userId od now).2.isOk = false →
      (create_order_from_cart db userId od now).1 = db) ∧
    (∀ o, (create_order_from_cart db userId od now).2 = .ok o →
      ∃ cart, get_cart db userId = some cart ∧
        (create_order_from_cart db userId od now).1.orders = db.orders ++ [o] ∧
        o.status = OS_PENDING ∧ o.id = db.next_id ∧
        (∃ L, (create_order_from_cart db userId od now).1.order_items = db.order_items ++ L ∧
          L.map orderLine = (db.itemsOfCart cart.id).map cartLine ∧
          ∀ oi ∈ L, oi.order_id = o.id) ∧
        (∃ M, (create_order_from_cart db userId od now).1.inventory_logs =
            db.inventory_logs ++ M ∧
          M.map logLine = (db.itemsOfCart cart.id).map
            (fun it => (it.product_id, -(it.quantity : Int), "order_placed", some o.id))) ∧
        (∀ pid p, findProduct db pid = some p →
          findProduct (create_order_from_cart db userId od now).1 pid =
            some { p with stock := p.stock - (cartQty (db.itemsOfCart cart.id) pid : Int) }) ∧
        (∀ pid, findProduct db pid = none →
          findProduct (create_order_from_cart db userId od now).1 pid = none) ∧
        (∀ c ∈ (create_order_from_cart db userId od now).1.carts,
          c.id = cart.id → c.status = CS_CONVERTED)) ∧
    ((create_guest_order db god now).2.isOk = false →
      (create_guest_order db god now).1 = db) ∧
    (∀ o, (create_guest_order db god now).2 = .ok o →
      (create_guest_order db god now).1.orders = db.orders ++ [o] ∧
      o.status = OS_PENDING ∧ o.id = db.next_id ∧
      (∃ L, (create_guest_order db god now).1.order_items = db.order_items ++ L ∧
        L.map orderLine = god.items.map (fun i => (i.product_id, i.quantity)) ∧
        ∀ oi ∈ L, oi.order_id = o.id) ∧
      (∃ M, (create_guest_order db god now).1.inventory_logs = db.inventory_logs ++ M ∧
        M.map logLine = god.items.map
          (fun i => (i.product_id, -(i.quantity : Int), "order_placed", some o.id))) ∧
      (∀ pid p, findProduct db pid = some p →
        findProduct (create_guest_order db god now).1 pid =
          some { p with stock := p.stock - (requestedQty god.items pid : Int) }) ∧
      (∀ pid, findProduct db pid = none →
        findProduct (create_guest_order db god now).1 pid = none)) := by
  refine ⟨?_, ?_, ?_, ?_⟩
  · intro hfail
    rcases create_order_from_cart_shape db userId od now with ⟨e, heq⟩ | ⟨cart, db4, o', hg, ha, heq⟩
    · rw [heq]
    · rw [heq] at hfail
      exact Bool.noConfusion hfail
  · intro o hok
    rcases create_order_from_cart_shape db userId od now with ⟨e, heq⟩ | ⟨cart, db4, o', hg, ha, heq⟩
    · rw [heq] at hok
      exact absurd hok (by simp)
    · rw [heq] at hok
      have ho : o' = o := Except.ok.inj hok
      subst ho
      obtain ⟨hid, hstat, hca, db2, hins, hdb4⟩ :=
        createOrderAttempt_ok_elim db userId cart od now db4 o' ha
      obtain ⟨ihc, iho, ihci, ihh, iha2, ihv, ⟨L, ihL, ihLmap, ihLoid⟩,
        ⟨M, ihM, ihMmap⟩, ihstock, ihnone, ihpres, ihnext⟩ :=
        insertItemsAndReserve_ok o'.id (db.itemsOfCart cart.id) _ db2 hins
      refine ⟨cart, hg, ?_, hstat, hid, ⟨L, ?_, ihLmap, ihLoid⟩, ⟨M, ?_, ihMmap⟩, ?_, ?_, ?_⟩
      · rw [heq]
        show db4.orders = db.orders ++ [o']
        rw [hdb4]
        exact iho
      · rw [heq]
        show db4.order_items = db.order_items ++ L
        rw [hdb4]
        exact ihL
      · rw [heq]
        show db4.inventory_logs = db.inventory_logs ++ M
        rw [hdb4]
        exact ihM
      · intro pid p hp
        rw [heq]
        show findProduct db4 pid = _
        rw [hdb4]
        exact ihstock pid p hp
      · intro pid hp
        rw [heq]
        show findProduct db4 pid = none
        rw [hdb4]
        exact ihnone pid hp
      · intro c hc hcid
        rw [heq] at hc
        have hc' : c ∈ db4.carts := hc
        rw [hdb4] at hc'
        have hc2 : c ∈ db2.carts.map (fun c0 =>
            if c0.id == cart.id then { cart with status := CS_CONVERTED } else c0) := hc'
        obtain ⟨c0, hc0, hfc⟩ := List.mem_map.mp hc2
        by_cases hcc : (c0.id == cart.id) = true
        · rw [if_pos hcc] at hfc
          rw [← hfc]
        · rw [if_neg hcc] at hfc
          subst hfc
          exact absurd (beq_iff_eq.mpr hcid) hcc
  · intro hfail
    rcases create_guest_order_shape db god now with ⟨e, heq⟩ | ⟨vs, sub, db4, o', hv, ha, heq⟩
    · rw [heq]
    · rw [heq] at hfail
      exact Bool.noConfusion hfail
  · intro o hok
    rcases create_guest_order_shape db god now with ⟨e, heq⟩ | ⟨vs, sub, db4, o', hv, ha, heq⟩
    · rw [heq] at hok
      exact absurd hok (by simp)
    · rw [heq] at hok
      have ho : o' = o := Except.ok.inj hok
      subst ho
      obtain ⟨hid, hstat, hca, db2, hins, hdb4⟩ :=
        createGuestOrderAttempt_ok_elim db god vs sub now db4 o' ha
      obtain ⟨ihc, iho, ihci, ihh, iha2, ihv2, ⟨L, ihL, ihLmap, ihLoid⟩,
        ⟨M, ihM, ihMmap⟩, ihstock, ihnone⟩ :=
        insertGuestItemsAndReserve_ok o'.id vs _ db2 hins
      have hlines := validate_items_ok_lines db god.items vs sub hv
      refine ⟨?_, hstat, hid, ⟨L, ?_, ?_, ihLoid⟩, ⟨M, ?_, ?_⟩, ?_, ?_⟩
      · rw [heq]
        show db4.orders = db.orders ++ [o']
        rw [hdb4]
        exact iho
      · rw [heq]
        show db4.order_items = db.order_items ++ L
        rw [hdb4]
        exact ihL
      · rw [ihLmap, hlines]
      · rw [heq]
        show db4.inventory_logs = db.inventory_logs ++ M
        rw [hdb4]
        exact ihM
      · rw [ihMmap]
        have hcomp : (fun v : ValidatedItem =>
            (v.product_id, -(v.quantity : Int), "order_placed", some o'.id)) =
            (fun l : Nat × Nat => (l.1, -(l.2 : Int), "order_placed", some o'.id)) ∘ validatedLine := rfl
        have hcomp2 : (fun i : OrderItemCreate =>
            (i.product_id, -(i.quantity : Int), "order_placed", some o'.id)) =
            (fun l : Nat × Nat => (l.1, -(l.2 : Int), "order_placed", some o'.id)) ∘
              (fun i : OrderItemCreate => (i.product_id, i.quantity)) := rfl
        rw [hcomp, hcomp2, ← List.map_map, ← List.map_map, hlines]
      · intro pid p hp
        rw [heq]
        show findProduct db4 pid = _
        rw [hdb4]
        show findProduct db2 pid = _
        have h2 := ihstock pid p hp
        rw [h2]
        have : validatedQty vs pid = requestedQty god.items pid := by
          rw [validatedQty_eq_lineQty, requestedQty_eq_lineQty, hlines]
        rw [this]
      · intro pid hp
        rw [heq]
        show findProduct db4 pid = none
        rw [hdb4]
        exact ihnone pid hp

/-- Witness for C3: a checkout by a user without a cart and a guest request
exceeding stock both leave the store untouched; a valid user checkout and a
valid guest order both commit, in particular decrementing product 5 from
stock 3 to 1 and (for the user path) appending the order row and converting
the cart. -/
theorem create_order_atomicity_witness :
    (create_order_from_cart dbCheckout 42 odCheckout 0).1 = dbCheckout ∧
    (create_guest_order dbCheckout guestReqShort 0).1 = dbCheckout ∧
    stockOf (create_order_from_cart dbCheckout 7 odCheckout 0).1 5 = some 1 ∧
    (create_order_from_cart dbCheckout 7 odCheckout 0).1.orders.length = 1 ∧
    (∀ c ∈ (create_order_from_cart dbCheckout 7 odCheckout 0).1.carts,
      c.id = 1 → c.status = CS_CONVERTED) ∧
    stockOf (create_guest_order dbCheckout guestReqOk 0).1 5 = some 1 := by
  refine ⟨(create_order_atomicity dbCheckout 42 odCheckout guestReqOk 0).1 (by decide),
    (create_order_atomicity dbCheckout 7 odCheckout guestReqShort 0).2.2.1 (by decide),
    ?_, ?_, ?_, ?_⟩
  · cases hr : (create_order_from_cart dbCheckout 7 odCheckout 0).2 with
    | error e =>
      have hok : (create_order_from_cart dbCheckout 7 odCheckout 0).2.isOk = true := by decide
      rw [hr] at hok
      exact Bool.noConfusion hok
    | ok o =>
      obtain ⟨cart, hg, horders, hstat, hid, hL, hM, hstock, hnone, hconv⟩ :=
        (create_order_atomicity dbCheckout 7 odCheckout guestReqOk 0).2.1 o hr
      have hcart : cart = userCart := by
        have hgc : get_cart dbCheckout 7 = some userCart := by decide
        exact Option.some.inj (hg.symm.trans hgc)
      subst hcart
      have h5 := hstock 5 productFive (by decide)
      rw [stockOf, h5]
      have : cartQty (dbCheckout.itemsOfCart userCart.id) 5 = 2 := by decide
      rw [this]
      decide
  · cases hr : (create_order_from_cart dbCheckout 7 odCheckout 0).2 with
    | error e =>
      have hok : (create_order_from_cart dbCheckout 7 odCheckout 0).2.isOk = true := by decide
      rw [hr] at hok
      exact Bool.noConfusion hok
    | ok o =>
      obtain ⟨cart, hg, horders, hstat, hid, hL, hM, hstock, hnone, hconv⟩ :=
        (create_order_atomicity dbCheckout 7 odCheckout guestReqOk 0).2.1 o hr
      rw [horders]
      rfl
  · cases hr : (create_order_from_cart dbCheckout 7 odCheckout 0).2 with
    | error e =>
      have hok : (create_order_from_cart dbCheckout 7 odCheckout 0).2.isOk = true := by decide
      rw [hr] at hok
      exact Bool.noConfusion hok
    | ok o =>
      obtain ⟨cart, hg, horders, hstat, hid, hL, hM, hstock, hnone, hconv⟩ :=
        (create_order_atomicity dbCheckout 7 odCheckout guestReqOk 0).2.1 o hr
      have hcart : cart = userCart := by
        have hgc : get_cart dbCheckout 7 = some userCart := by decide
        exact Option.some.inj (hg.symm.trans hgc)
      subst hcart
      exact fun c hc hcid => hconv c hc hcid
  · cases hr : (create_guest_order dbCheckout guestReqOk 0).2 with
    | error e =>
      have hok : (create_guest_order dbCheckout guestReqOk 0).2.isOk = true := by decide
      rw [hr] at hok
      exact Bool.noConfusion hok
    | ok o =>
      obtain ⟨horders, hstat, hid, hL, hM, hstock, hnone⟩ :=
        (create_order_atomicity dbCheckout 7 odCheckout guestReqOk 0).2.2.2 o hr
      have h5 := hstock 5 productFive (by decide)
      rw [stockOf, h5]
      have : requestedQty guestReqOk.items 5 = 2 := by decide
      rw [this]
      decide

/-- cancel_order either rejects, returning the untouched store, or its
result store carries exactly the products table produced by releasing every
line of the cancelled order. -/
theorem cancel_order_shape (db : DB) (now : Int) (orderId userId : Nat)
    (reason : Option String) (adm : Bool) :
    ((cancel_order db now orderId userId reason adm).2.isOk = false ∧
      (cancel_order db now orderId userId reason adm).1 = db) ∨
    (∃ order, db.orders.find? (fun x => x.id == orderId) = some order ∧
      (cancel_order db now orderId userId reason adm).1.products =
        (releaseItems db orderId (db.itemsOfOrder orderId)).products ∧
      (cancel_order db now orderId userId reason adm).1.inventory_logs =
        (releaseItems db orderId (db.itemsOfOrder orderId)).inventory_logs) := by
  rw [cancel_order]
  cases hf : db.orders.find? (fun x => x.id == orderId) with
  | none => exact Or.inl ⟨rfl, rfl⟩
  | some order =>
    cases hg1 : (!adm && !(order.user_id == some userId)) with
    | true =>
      exact Or.inl ⟨by simp [hg1, Except.isOk, Except.toBool], by simp [hg1]⟩
    | false =>
      cases hg2 : order.is_cancellable with
      | false =>
        exact Or.inl ⟨by simp [hg1, hg2, Except.isOk, Except.toBool], by simp [hg1, hg2]⟩
      | true =>
        cases hg3 : (!adm && cancellationWindowExpired now order.created_at) with
        | true =>
          exact Or.inl ⟨by simp [hg1, hg2, hg3, Except.isOk, Except.toBool],
            by simp [hg1, hg2, hg3]⟩
        | false =>
          refine Or.inr ⟨order, rfl, ?_, ?_⟩ <;>
            · simp only [hg1, hg2, hg3]
              rfl

/-- C4: reservation followed by cancellation is the identity on stock.  If
create_order_from_cart commits an order o against a store with coherent row
ids, and cancel_order then succeeds on o against the committed store, the
compensation releases exactly the reserved product ids and quantities:
every product ends with precisely its pre-order stock (present or absent as
before). -/
theorem reserve_then_cancel_restores_stock
    (db : DB) (userId : Nat) (od : OrderFromCart) (now now2 : Int)
    (uid2 : Nat) (reason : Option String) (adm : Bool) (o : Order)
    (hfresh : FreshIds db)
    (hcreate : (create_order_from_cart db userId od now).2 = .ok o)
    (hcancel : (cancel_order (create_order_from_cart db userId od now).1
      now2 o.id uid2 reason adm).2.isOk = true) :
    ∀ pid, stockOf (cancel_order (create_order_from_cart db userId od now).1
      now2 o.id uid2 reason adm).1 pid = stockOf db pid := by
  rcases create_order_from_cart_shape db userId od now with ⟨e, heq⟩ | ⟨cart, db4, o', hg, ha, heq⟩
  · rw [heq] at hcreate
    exact absurd hcreate (by simp)
  · rw [heq] at hcreate
    have ho : o' = o := Except.ok.inj hcreate
    subst ho
    obtain ⟨hid, hstat, hca, db2, hins, hdb4⟩ :=
      createOrderAttempt_ok_elim db userId cart od now db4 o' ha
    obtain ⟨ihc, iho, ihci, ihh, iha2, ihv, ⟨L, ihL, ihLmap, ihLoid⟩,
      ⟨M, ihM, ihMmap⟩, ihstock, ihnone, ihpres, ihnext⟩ :=
      insertItemsAndReserve_ok o'.id (db.itemsOfCart cart.id) _ db2 hins
    rw [heq] at hcancel ⊢
    have horders : db4.orders = db.orders ++ [o'] := by
      rw [hdb4]
      exact iho
    have hitems4 : db4.order_items = db.order_items ++ L := by
      rw [hdb4]
      exact ihL
    have hfind4 : db4.orders.find? (fun x => x.id == o'.id) = some o' := by
      rw [horders, find?_append_of_none]
      · rw [List.find?_cons_of_pos]
        simp
      · rw [List.find?_eq_none]
        intro x hx
        have hlt : x.id < db.next_id := hfresh.1 x hx
        simp only [hid]
        simp only [beq_iff_eq]
        omega
    have hitemsL : db4.itemsOfOrder o'.id = L := by
      rw [DB.itemsOfOrder, hitems4, List.filter_append]
      have h1 : db.order_items.filter (fun it => it.order_id == o'.id) = [] := by
        rw [List.filter_eq_nil_iff]
        intro x hx
        have hlt : x.order_id < db.next_id := hfresh.2.1 x hx
        simp only [hid, beq_iff_eq]
        omega
      have h2 : L.filter (fun it => it.order_id == o'.id) = L := by
        rw [List.filter_eq_self]
        intro x hx
        exact beq_iff_eq.mpr (ihLoid x hx)
      rw [h1, h2]
      rfl
    rcases cancel_order_shape db4 now2 o'.id uid2 reason adm with ⟨hf, _⟩ | ⟨order2, _, hprod, _⟩
    · rw [hcancel] at hf
      exact Bool.noConfusion hf
    · intro pid
      have hsw : stockOf (cancel_order db4 now2 o'.id uid2 reason adm).1 pid =
          stockOf (releaseItems db4 o'.id (db4.itemsOfOrder o'.id)) pid := by
        rw [stockOf, stockOf, findProduct, findProduct, hprod]
      rw [hsw, hitemsL]
      cases hfp : findProduct db pid with
      | some p =>
        have hfp4 : findProduct db4 pid =
            some { p with stock := p.stock - (cartQty (db.itemsOfCart cart.id) pid : Int) } := by
          rw [hdb4]
          exact ihstock pid p hfp
        have hrel := stock_after_releaseItems o'.id L db4 pid _ hfp4
        have hq : orderQty L pid = cartQty (db.itemsOfCart cart.id) pid := by
          rw [orderQty_eq_lineQty, cartQty_eq_lineQty, ihLmap]
        simp only [stockOf]
        rw [hrel, hfp]
        simp only [Option.map_some', Option.some.injEq]
        show p.stock - (cartQty (db.itemsOfCart cart.id) pid : Int) + (orderQty L pid : Int) = p.stock
        rw [hq]
        omega
      | none =>
        have hfp4 : findProduct db4 pid = none := by
          rw [hdb4]
          exact ihnone pid hfp
        have hrel := (releaseItems_missing_product o'.id pid L db4 hfp4).2
        simp only [stockOf]
        rw [hrel, hfp]

/-- Witness for C4: user 7 checks out 2 units of product 5 (stock 3 drops to
1), then cancels the created order (id 10): product 5 is back at its
pre-order stock. -/
theorem reserve_then_cancel_restores_stock_witness :
    stockOf (cancel_order (create_order_from_cart dbCheckout 7 odCheckout 0).1
      100 10 7 none false).1 5 = stockOf dbCheckout 5 := by
  cases hr : (create_order_from_cart dbCheckout 7 odCheckout 0).2 with
  | error e =>
    have hok : (create_order_from_cart dbCheckout 7 odCheckout 0).2.isOk = true := by decide
    rw [hr] at hok
    exact Bool.noConfusion hok
  | ok o =>
    have hid10 : o.id = 10 := by
      rcases create_order_from_cart_shape dbCheckout 7 odCheckout 0 with
        ⟨e, heq⟩ | ⟨cart, db4, o', hg, ha, heq⟩
      · rw [heq] at hr
        exact absurd hr (by simp)
      · rw [heq] at hr
        have ho : o' = o := Except.ok.inj hr
        subst ho
        exact (createOrderAttempt_ok_elim dbCheckout 7 cart odCheckout 0 db4 o' ha).1
    have hcanc : (cancel_order (create_order_from_cart dbCheckout 7 odCheckout 0).1
        100 o.id 7 none false).2.isOk = true := by
      rw [hid10]
      decide
    have happ := reserve_then_cancel_restores_stock dbCheckout 7 odCheckout 0 100 7
      none false o ⟨by decide, by decide, by decide⟩ hr hcanc
    rw [hid10] at happ
    exact happ 5

/-- Appending one entry adds its delta to the ledger sum of its product and
nothing to any other product. -/
theorem ledgerSum_append_single (L : List InventoryLog) (l : InventoryLog) (q : Nat) :
    ledgerSum (L ++ [l]) q =
      ledgerSum L q + (if l.product_id == q then l.change_quantity else 0) := by
  rw [ledgerSum, ledgerSum, List.filter_append, List.map_append, List.sum_append]
  congr 1
  by_cases h : (l.product_id == q) = true <;> simp [h]

/-- Appending an entry whose recorded new_stock matches the extended running
total preserves entry-wise consistency. -/
theorem entriesOkFrom_append (base : Nat → Int) (l : InventoryLog) :
    ∀ (L pre : List InventoryLog),
      entriesOkFrom base pre L →
      l.new_stock = base l.product_id + ledgerSum ((pre ++ L) ++ [l]) l.product_id →
      entriesOkFrom base pre (L ++ [l])
  | [], pre, _, hl => by
    refine ⟨?_, trivial⟩
    rw [List.append_nil] at hl
    exact hl
  | x :: xs, pre, hE, hl => by
    obtain ⟨hx, hxs⟩ := hE
    refine ⟨hx, ?_⟩
    apply entriesOkFrom_append base l xs (pre ++ [x]) hxs
    have : (pre ++ [x]) ++ xs = pre ++ (x :: xs) := by simp
    rw [this]
    exact hl

/-- One generic stock mutation step: look the product up, write a new stock
value, append the ledger entry recording the applied delta and the value
just written.  It preserves both the ledger invariant and entry-wise
consistency. -/
theorem ledger_step (base : Nat → Int) (db : DB) (pid : Nat) (p : Product)
    (change s : Int) (reason : String) (oidOpt aidOpt : Option Nat)
    (hfind : findProduct db pid = some p) (hs : s = p.stock + change)
    (hInv : LedgerInv base db) (hE : EntriesOk base db.inventory_logs) :
    LedgerInv base { db with
      products := setStock db.products pid s
      inventory_logs := db.inventory_logs ++
        [{ product_id := pid, change_quantity := change, new_stock := s,
           reason := reason, order_id := oidOpt, admin_id := aidOpt }] } ∧
    EntriesOk base (db.inventory_logs ++
      [{ product_id := pid, change_quantity := change, new_stock := s,
         reason := reason, order_id := oidOpt, admin_id := aidOpt }]) := by
  have hfind' : db.products.find? (fun x => x.id == pid) = some p := hfind
  have hpmem : p ∈ db.products := List.mem_of_find?_eq_some hfind'
  have hppid : p.id = pid := by
    have hpx := List.find?_some hfind'
    exact beq_iff_eq.mp hpx
  have hpInv : p.stock = base pid + ledgerSum db.inventory_logs pid := by
    rw [← hppid]
    exact hInv p hpmem
  have hsum : ledgerSum (db.inventory_logs ++
      [{ product_id := pid, change_quantity := change, new_stock := s,
         reason := reason, order_id := oidOpt, admin_id := aidOpt }]) pid =
      ledgerSum db.inventory_logs pid + change := by
    rw [ledgerSum_append_single]
    simp
  constructor
  · intro p' hp'
    obtain ⟨q, hq, hq'⟩ := List.mem_map.mp hp'
    have hqInv := hInv q hq
    by_cases hqq : (q.id == pid) = true
    · rw [if_pos hqq] at hq'
      have hqid : q.id = pid := beq_iff_eq.mp hqq
      rw [← hq']
      show s = base q.id + ledgerSum _ q.id
      have hqstock : q.stock = p.stock := by
        rw [hqInv, hqid, ← hppid, hInv p hpmem]
      rw [hqid, hsum, hs, ← hqstock, hqInv, hqid]
      ring
    · rw [if_neg hqq] at hq'
      rw [← hq']
      rw [hqInv]
      have : ledgerSum (db.inventory_logs ++
          [{ product_id := pid, change_quantity := change, new_stock := s,
             reason := reason, order_id := oidOpt, admin_id := aidOpt }]) q.id =
          ledgerSum db.inventory_logs q.id := by
        rw [ledgerSum_append_single]
        have hne : (pid == q.id) = false := by
          simp only [beq_eq_false_iff_ne, ne_eq]
          intro hh
          rw [hh] at hqq
          simp at hqq
        simp [hne]
      rw [this]
  · apply entriesOkFrom_append base _ db.inventory_logs [] hE
    simp only [List.nil_append]
    rw [hsum, hs, hpInv]
    ring

/-- _release_stock preserves the ledger invariant and entry consistency. -/
theorem inv_release_stock (base : Nat → Int) (db : DB) (pid q oid : Nat)
    (hInv : LedgerInv base db) (hE : EntriesOk base db.inventory_logs) :
    LedgerInv base (release_stock db pid q oid) ∧
      EntriesOk base (release_stock db pid q oid).inventory_logs := by
  cases hf : findProduct db pid with
  | none =>
    have hsame : release_stock db pid q oid = db := by rw [release_stock, hf]
    rw [hsame]
    exact ⟨hInv, hE⟩
  | some p =>
    have hform : release_stock db pid q oid = { db with
        products := setStock db.products pid (p.stock + (q : Int))
        inventory_logs := db.inventory_logs ++
          [{ product_id := pid, change_quantity := (q : Int),
             new_stock := p.stock + (q : Int), reason := "order_cancelled",
             order_id := some oid, admin_id := none }] } := by
      rw [release_stock, hf]
    rw [hform]
    exact ledger_step base db pid p (q : Int) (p.stock + (q : Int)) "order_cancelled"
      (some oid) none hf rfl hInv hE

/-- The whole release loop preserves the ledger invariant and entry
consistency. -/
theorem inv_releaseItems (base : Nat → Int) (oid : Nat) :
    ∀ (items : List OrderItem) (db : DB),
      LedgerInv base db → EntriesOk base db.inventory_logs →
      LedgerInv base (releaseItems db oid items) ∧
        EntriesOk base (releaseItems db oid items).inventory_logs
  | [], db, hInv, hE => ⟨hInv, hE⟩
  | it :: rest, db, hInv, hE => by
    rw [releaseItems, List.foldl_cons,
      show List.foldl (fun acc x => release_stock acc x.product_id x.quantity oid)
        (release_stock db it.product_id it.quantity oid) rest =
        releaseItems (release_stock db it.product_id it.quantity oid) oid rest from rfl]
    have hstep := inv_release_stock base db it.product_id it.quantity oid hInv hE
    exact inv_releaseItems base oid rest _ hstep.1 hstep.2

/-- The order-item/reservation loop preserves the ledger invariant and entry
consistency. -/
theorem inv_insertItemsAndReserve (base : Nat → Int) (oid : Nat) :
    ∀ (items : List CartItem) (db db' : DB),
      insertItemsAndReserve db oid items = .ok db' →
      LedgerInv base db → EntriesOk base db.inventory_logs →
      LedgerInv base db' ∧ EntriesOk base db'.inventory_logs
  | [], db, db', h, hInv, hE => by
    have hdb : db = db' := Except.ok.inj h
    subst hdb
    exact ⟨hInv, hE⟩
  | it :: rest, db, db', h, hInv, hE => by
    rw [insertItemsAndReserve] at h
    cases hr : reserve_stock
        { db with
          order_items := db.order_items ++ [create_order_item db oid it db.next_id]
          next_id := db.next_id + 1 } it oid with
    | error e =>
      rw [hr] at h
      exact absurd h (by simp)
    | ok db2 =>
      rw [hr] at h
      obtain ⟨p, hfindp, hge, hdb2⟩ := reserve_stock_ok_elim _ it oid db2 hr
      have hInv1 : LedgerInv base { db with
          order_items := db.order_items ++ [create_order_item db oid it db.next_id]
          next_id := db.next_id + 1 } := hInv
      have hE1 : EntriesOk base ({ db with
          order_items := db.order_items ++ [create_order_item db oid it db.next_id]
          next_id := db.next_id + 1 } : DB).inventory_logs := hE
      have hstep := ledger_step base _ it.product_id p (-(it.quantity : Int))
        (p.stock - (it.quantity : Int)) "order_placed" (some oid) none hfindp
        (by ring) hInv1 hE1
      refine inv_insertItemsAndReserve base oid rest db2 db' h ?_ ?_
      · rw [hdb2]
        exact hstep.1
      · rw [hdb2]
        exact hstep.2

/-- The guest order-item/reservation loop preserves the ledger invariant and
entry consistency. -/
theorem inv_insertGuestItemsAndReserve (base : Nat → Int) (oid : Nat) :
    ∀ (items : List ValidatedItem) (db db' : DB),
      insertGuestItemsAndReserve db oid items = .ok db' →
      LedgerInv base db → EntriesOk base db.inventory_logs →
      LedgerInv base db' ∧ EntriesOk base db'.inventory_logs
  | [], db, db', h, hInv, hE => by
    have hdb : db = db' := Except.ok.inj h
    subst hdb
    exact ⟨hInv, hE⟩
  | v :: rest, db, db', h, hInv, hE => by
    rw [insertGuestItemsAndReserve] at h
    cases hr : reserve_stock_direct
        { db with
          order_items := db.order_items ++
            [{ id := db.next_id, order_id := oid, product_id := v.product_id,
               variation_id := v.variation_id, quantity := v.quantity, price := v.price }]
          next_id := db.next_id + 1 } v.product_id v.quantity oid with
    | error e =>
      rw [hr] at h
      exact absurd h (by simp)
    | ok db2 =>
      rw [hr] at h
      obtain ⟨p, hfindp, hge, hdb2⟩ :=
        reserve_stock_direct_ok_elim _ v.product_id v.quantity oid db2 hr
      have hInv1 : LedgerInv base { db with
          order_items := db.order_items ++
            [{ id := db.next_id, order_id := oid, product_id := v.product_id,
               variation_id := v.variation_id, quantity := v.quantity, price := v.price }]
          next_id := db.next_id + 1 } := hInv
      have hE1 : EntriesOk base ({ db with
          order_items := db.order_items ++
            [{ id := db.next_id, order_id := oid, product_id := v.product_id,
               variation_id := v.variation_id, quantity := v.quantity, price := v.price }]
          next_id := db.next_id + 1 } : DB).inventory_logs := hE
      have hstep := ledger_step base _ v.product_id p (-(v.quantity : Int))
        (p.stock - (v.quantity : Int)) "order_placed" (some oid) none hfindp
        (by ring) hInv1 hE1
      refine inv_insertGuestItemsAndReserve base oid rest db2 db' h ?_ ?_
      · rw [hdb2]
        exact hstep.1
      · rw [hdb2]
        exact hstep.2

/-- The ledger invariant transfers along equal products and logs tables. -/
theorem ledgerInv_congr (base : Nat → Int) (X Y : DB)
    (hp : X.products = Y.products) (hl : X.inventory_logs = Y.inventory_logs)
    (h : LedgerInv base Y) : LedgerInv base X := by
  intro p hpm
  rw [hp] at hpm
  rw [hl]
  exact h p hpm

/-- C1: every stock-mutating operation of the core - order creation (user
and guest reservation paths), cancellation (release path), and the manual
admin adjustment of InventoryService.update_stock - preserves the ledger
contract: after the operation every stored product still satisfies
stock = baseline + the sum of its ledger deltas (LedgerInv), and every
ledger entry - in particular each one written by the operation - records in
new_stock exactly the running ledger total at its position, i.e. the stock
right after that mutation (EntriesOk). -/
theorem ledger_consistency_preserved (base : Nat → Int) (db : DB)
    (hInv : LedgerInv base db) (hE : EntriesOk base db.inventory_logs) :
    (∀ userId od now,
      LedgerInv base (create_order_from_cart db userId od now).1 ∧
      EntriesOk base (create_order_from_cart db userId od now).1.inventory_logs) ∧
    (∀ god now,
      LedgerInv base (create_guest_order db god now).1 ∧
      EntriesOk base (create_guest_order db god now).1.inventory_logs) ∧
    (∀ now orderId userId reason adm,
      LedgerInv base (cancel_order db now orderId userId reason adm).1 ∧
      EntriesOk base (cancel_order db now orderId userId reason adm).1.inventory_logs) ∧
    (∀ pid change reason aid,
      LedgerInv base (update_stock db pid change reason aid).1 ∧
      EntriesOk base (update_stock db pid change reason aid).1.inventory_logs) := by
  refine ⟨?_, ?_, ?_, ?_⟩
  · intro userId od now
    rcases create_order_from_cart_shape db userId od now with
      ⟨e, heq⟩ | ⟨cart, db4, o', hg, ha, heq⟩
    · rw [heq]
      exact ⟨hInv, hE⟩
    · rw [heq]
      obtain ⟨hid, hstat, hca, db2, hins, hdb4⟩ :=
        createOrderAttempt_ok_elim db userId cart od now db4 o' ha
      have hInv1 : LedgerInv base
          { db with orders := db.orders ++ [o'], next_id := db.next_id + 1 } := hInv
      have hE1 : EntriesOk base
          ({ db with orders := db.orders ++ [o'], next_id := db.next_id + 1 } : DB).inventory_logs := hE
      have hfold := inv_insertItemsAndReserve base o'.id (db.itemsOfCart cart.id)
        _ db2 hins hInv1 hE1
      constructor
      · show LedgerInv base db4
        rw [hdb4]
        exact hfold.1
      · show EntriesOk base db4.inventory_logs
        rw [hdb4]
        exact hfold.2
  · intro god now
    rcases create_guest_order_shape db god now with
      ⟨e, heq⟩ | ⟨vs, sub, db4, o', hv, ha, heq⟩
    · rw [heq]
      exact ⟨hInv, hE⟩
    · rw [heq]
      obtain ⟨hid, hstat, hca, db2, hins, hdb4⟩ :=
        createGuestOrderAttempt_ok_elim db god vs sub now db4 o' ha
      have hInv1 : LedgerInv base
          { db with orders := db.orders ++ [o'], next_id := db.next_id + 1 } := hInv
      have hE1 : EntriesOk base
          ({ db with orders := db.orders ++ [o'], next_id := db.next_id + 1 } : DB).inventory_logs := hE
      have hfold := inv_insertGuestItemsAndReserve base o'.id vs _ db2 hins hInv1 hE1
      constructor
      · show LedgerInv base db4
        rw [hdb4]
        exact hfold.1
      · show EntriesOk base db4.inventory_logs
        rw [hdb4]
        exact hfold.2
  · intro now orderId userId reason adm
    rcases cancel_order_shape db now orderId userId reason adm with
      ⟨_, heq⟩ | ⟨order, _, hprod, hlogs⟩
    · rw [heq]
      exact ⟨hInv, hE⟩
    · have hrel := inv_releaseItems base orderId (db.itemsOfOrder orderId) db hInv hE
      constructor
      · exact ledgerInv_congr base _ _ hprod hlogs hrel.1
      · rw [hlogs]
        exact hrel.2
  · intro pid change reason aid
    cases hf : findProduct db pid with
    | none =>
      have heq : update_stock db pid change reason aid = (db, .error .productNotFound) := by
        simp [update_stock, hf]
      rw [heq]
      exact ⟨hInv, hE⟩
    | some p =>
      by_cases hneg : p.stock + change < 0
      · have heq : update_stock db pid change reason aid = (db, .error .negativeStock) := by
          simp [update_stock, hf, hneg]
        rw [heq]
        exact ⟨hInv, hE⟩
      · have heq : (update_stock db pid change reason aid).1 = { db with
            products := setStock db.products pid (p.stock + change)
            inventory_logs := db.inventory_logs ++
              [{ product_id := pid, change_quantity := change, new_stock := p.stock + change,
                 reason := reason, order_id := none, admin_id := aid }] } := by
          simp [update_stock, hf, hneg]
        rw [heq]
        exact ledger_step base db pid p change (p.stock + change) reason none aid hf rfl hInv hE

/-- Witness for C1: starting from a store satisfying the invariant with
baseline 3 for product 5, both a successful checkout of user 7 and a manual
admin adjustment of minus 2 preserve the ledger invariant and entry
consistency. -/
theorem ledger_consistency_preserved_witness :
    (LedgerInv (fun _ => 3) (create_order_from_cart dbCheckout 7 odCheckout 0).1 ∧
      EntriesOk (fun _ => 3)
        (create_order_from_cart dbCheckout 7 odCheckout 0).1.inventory_logs) ∧
    (LedgerInv (fun _ => 3) (update_stock dbCheckout 5 (-2) "damage" (some 1)).1 ∧
      EntriesOk (fun _ => 3)
        (update_stock dbCheckout 5 (-2) "damage" (some 1)).1.inventory_logs) := by
  have hInv : LedgerInv (fun _ => 3) dbCheckout := by
    intro p hp
    simp [dbCheckout] at hp
    subst hp
    decide
  have h := ledger_consistency_preserved (fun _ => 3) dbCheckout hInv trivial
  exact ⟨h.1 7 odCheckout 0, h.2.2.2 5 (-2) "damage" (some 1)⟩

/-- _update_cart_totals touches only the carts table, and afterwards every
cart row with the recomputed id stores totals satisfying the totals
algorithm over the current item set. -/
theorem update_cart_totals_spec (db : DB) (cartId : Nat) :
    (update_cart_totals db cartId).cart_items = db.cart_items ∧
    (update_cart_totals db cartId).products = db.products ∧
    ∀ c ∈ (update_cart_totals db cartId).carts, c.id = cartId →
      c.subtotal = cartItemsSubtotal db (db.itemsOfCart cartId) ∧
      c.tax_amount = c.subtotal * TAX_RATE ∧
      c.total = c.subtotal + c.tax_amount +
        (if c.subtotal < FREE_SHIPPING_THRESHOLD && 0 < c.subtotal then SHIPPING_COST else 0) -
        c.discount_amount := by
  rw [update_cart_totals]
  cases hf : db.carts.find? (fun c => c.id == cartId) with
  | none =>
    refine ⟨rfl, rfl, ?_⟩
    intro c hc hcid
    have := List.find?_eq_none.mp hf c hc
    exact absurd (beq_iff_eq.mpr hcid) this
  | some c0 =>
    have hc0id : c0.id = cartId := by
      have hpx := List.find?_some hf
      exact beq_iff_eq.mp hpx
    refine ⟨rfl, rfl, ?_⟩
    intro c hc hcid
    have hc2 : c ∈ db.carts.map (fun x =>
        if x.id == (updateCartTotalsRow db c0).id then updateCartTotalsRow db c0 else x) := hc
    obtain ⟨x, hx, hfx⟩ := List.mem_map.mp hc2
    by_cases hxx : (x.id == (updateCartTotalsRow db c0).id) = true
    · rw [if_pos hxx] at hfx
      subst hfx
      have hrowid : (updateCartTotalsRow db c0).id = c0.id := rfl
      refine ⟨?_, rfl, rfl⟩
      show cartItemsSubtotal db (db.itemsOfCart c0.id) = cartItemsSubtotal db (db.itemsOfCart cartId)
      rw [hc0id]
    · rw [if_neg hxx] at hfx
      subst hfx
      have : (x.id == (updateCartTotalsRow db c0).id) = true := by
        show (x.id == c0.id) = true
        rw [hc0id]
        exact beq_iff_eq.mpr hcid
      exact absurd this hxx

/-- The cart subtotal only reads the products table, so stores with equal
products tables agree on it. -/
theorem cartItemsSubtotal_products_congr (X Y : DB) (hp : X.products = Y.products)
    (items : List CartItem) : cartItemsSubtotal X items = cartItemsSubtotal Y items := by
  rw [cartItemsSubtotal, cartItemsSubtotal, foldl_add_map_sum, foldl_add_map_sum]
  congr 1
  congr 1
  apply List.map_congr_left
  intro it hit
  simp only [effectiveUnitPrice, findProduct, hp]

/-- C8: add_item fails with NotFound when the product is missing or inactive
or the named variation does not exist; fails with LimitExceeded when the
resulting line quantity (existing plus requested) exceeds 10; fails with
InsufficientStock when the resulting quantity exceeds the variation stock
(when tracked) else the product stock; each failure returns the store
untouched.  On success it returns the merged existing line or a freshly
appended line, with the unit price snapshotted from the product, and the
cart row stores totals recomputed from the new item set. -/
theorem add_item_spec (db : DB) (cart : Cart) (d : CartItemCreate) :
    (db.products.find? (fun p => p.id == d.product_id && p.is_active) = none →
      add_item db cart d = (db, .error .productNotFound)) ∧
    (∀ prod vid, db.products.find? (fun p => p.id == d.product_id && p.is_active) = some prod →
      d.variation_id = some vid →
      db.variations.find? (fun v => v.id == vid && v.product_id == d.product_id) = none →
      add_item db cart d = (db, .error .variationNotFound)) ∧
    (∀ prod avail,
      db.products.find? (fun p => p.id == d.product_id && p.is_active) = some prod →
      addItemAvailableStock db d prod = .ok avail →
      (addItemNewQuantity db cart d > MAX_QUANTITY_PER_ITEM →
        add_item db cart d = (db, .error .limitExceeded)) ∧
      (addItemNewQuantity db cart d ≤ MAX_QUANTITY_PER_ITEM →
        (addItemNewQuantity db cart d : Int) > avail →
        add_item db cart d = (db, .error (.insufficientStock avail))) ∧
      (addItemNewQuantity db cart d ≤ MAX_QUANTITY_PER_ITEM →
        ¬ ((addItemNewQuantity db cart d : Int) > avail) →
        ∃ it',
          (add_item db cart d).2 = .ok it' ∧
          it'.product_id = d.product_id ∧
          it'.variation_id = d.variation_id ∧
          it'.quantity = addItemNewQuantity db cart d ∧
          it'.unit_price = some prod.price ∧
          it' ∈ (add_item db cart d).1.cart_items ∧
          (∀ it0, addItemExisting db cart d = some it0 →
            it'.id = it0.id ∧
            (add_item db cart d).1.cart_items.length = db.cart_items.length) ∧
          (addItemExisting db cart d = none →
            it'.id = db.next_id ∧
            (add_item db cart d).1.cart_items.length = db.cart_items.length + 1) ∧
          (∀ c ∈ (add_item db cart d).1.carts, c.id = cart.id →
            c.subtotal = cartItemsSubtotal (add_item db cart d).1
              ((add_item db cart d).1.itemsOfCart cart.id) ∧
            c.tax_amount = c.subtotal * TAX_RATE ∧
            c.total = c.subtotal + c.tax_amount +
              (if c.subtotal < FREE_SHIPPING_THRESHOLD && 0 < c.subtotal
               then SHIPPING_COST else 0) - c.discount_amount))) := by
  refine ⟨?_, ?_, ?_⟩
  · intro h
    simp [add_item, h]
  · intro prod vid hfind hvid hvfind
    have havail : addItemAvailableStock db d prod = .error .variationNotFound := by
      simp only [addItemAvailableStock, hvid, hvfind]
    simp [add_item, hfind, havail]
  · intro prod avail hfind havail
    refine ⟨?_, ?_, ?_⟩
    · intro hgt
      simp only [add_item, hfind, havail]
      rw [if_pos hgt]
    · intro hle hgt
      simp only [add_item, hfind, havail]
      rw [if_neg (not_lt.mpr hle), if_pos hgt]
    · intro hle hngt
      cases hex : addItemExisting db cart d with
      | some it0 =>
        have hres : add_item db cart d =
            (update_cart_totals { db with cart_items :=
                (db.cart_items.map (fun x => if x.id == it0.id then { it0 with quantity := addItemNewQuantity db cart d, unit_price := some prod.price } else x)) } cart.id,
             .ok { it0 with quantity := addItemNewQuantity db cart d, unit_price := some prod.price }) := by
          simp only [add_item, hfind, havail, hex]
          rw [if_neg (not_lt.mpr hle), if_neg hngt]
        have hpred := List.find?_some (show db.cart_items.find? (fun it =>
          it.cart_id == cart.id && it.product_id == d.product_id &&
            it.variation_id == d.variation_id) = some it0 from hex)
        have hmem0 : it0 ∈ db.cart_items := List.mem_of_find?_eq_some
          (show db.cart_items.find? (fun it =>
            it.cart_id == cart.id && it.product_id == d.product_id &&
              it.variation_id == d.variation_id) = some it0 from hex)
        simp only [Bool.and_eq_true] at hpred
        obtain ⟨⟨hcid0, hpid0⟩, hvid0⟩ := hpred
        have hspec := update_cart_totals_spec { db with cart_items :=
          (db.cart_items.map (fun x => if x.id == it0.id then { it0 with quantity := addItemNewQuantity db cart d, unit_price := some prod.price } else x)) } cart.id
        refine ⟨{ it0 with quantity := addItemNewQuantity db cart d, unit_price := some prod.price },
          by rw [hres], beq_iff_eq.mp hpid0,
          beq_iff_eq.mp hvid0, rfl, rfl, ?_, ?_, ?_, ?_⟩
        · rw [hres]
          show _ ∈ (update_cart_totals _ cart.id).cart_items
          rw [hspec.1]
          exact List.mem_map.mpr ⟨it0, hmem0, by simp⟩
        · intro it1 hit1
          have h10 : it1 = it0 := (Option.some.inj hit1).symm
          subst h10
          refine ⟨rfl, ?_⟩
          rw [hres]
          show (update_cart_totals _ cart.id).cart_items.length = _
          rw [hspec.1]
          exact List.length_map _ _
        · intro hnone
          exact absurd hnone (by simp)
        · intro c hc hcid
          rw [hres] at hc
          have hcl := hspec.2.2 c hc hcid
          rw [hres]
          have hi : (update_cart_totals { db with cart_items :=
              (db.cart_items.map (fun x => if x.id == it0.id then { it0 with quantity := addItemNewQuantity db cart d, unit_price := some prod.price } else x)) } cart.id).cart_items =
              (db.cart_items.map (fun x => if x.id == it0.id then { it0 with quantity := addItemNewQuantity db cart d, unit_price := some prod.price } else x)) := hspec.1
          refine ⟨?_, hcl.2.1, hcl.2.2⟩
          rw [hcl.1]
          rw [cartItemsSubtotal_products_congr _ _ hspec.2.1]
          congr 1
          rw [DB.itemsOfCart, DB.itemsOfCart, hi]
      | none =>
        have hres : add_item db cart d =
            (update_cart_totals { db with
               cart_items := db.cart_items ++
                 [{ id := db.next_id, cart_id := cart.id, user_id := cart.user_id,
                    product_id := d.product_id, variation_id := d.variation_id,
                    quantity := d.quantity, unit_price := some prod.price }]
               next_id := db.next_id + 1 } cart.id,
             .ok { id := db.next_id, cart_id := cart.id, user_id := cart.user_id,
                   product_id := d.product_id, variation_id := d.variation_id,
                   quantity := d.quantity, unit_price := some prod.price }) := by
          simp only [add_item, hfind, havail, hex]
          rw [if_neg (not_lt.mpr hle), if_neg hngt]
        have hq : addItemNewQuantity db cart d = d.quantity := by
          rw [addItemNewQuantity, hex]
        have hspec := update_cart_totals_spec { db with
          cart_items := db.cart_items ++
            [{ id := db.next_id, cart_id := cart.id, user_id := cart.user_id,
               product_id := d.product_id, variation_id := d.variation_id,
               quantity := d.quantity, unit_price := some prod.price }]
          next_id := db.next_id + 1 } cart.id
        refine ⟨{ id := db.next_id, cart_id := cart.id, user_id := cart.user_id,
                  product_id := d.product_id, variation_id := d.variation_id,
                  quantity := d.quantity, unit_price := some prod.price },
          by rw [hres], rfl, rfl, by rw [hq], rfl, ?_, ?_, ?_, ?_⟩
        · rw [hres]
          show _ ∈ (update_cart_totals _ cart.id).cart_items
          rw [hspec.1]
          exact List.mem_append.mpr (Or.inr (by simp))
        · intro it1 hit1
          exact absurd hit1 (by simp)
        · intro _
          refine ⟨rfl, ?_⟩
          rw [hres]
          show (update_cart_totals _ cart.id).cart_items.length = _
          rw [hspec.1]
          simp
        · intro c hc hcid
          rw [hres] at hc
          have hcl := hspec.2.2 c hc hcid
          rw [hres]
          have hi : (update_cart_totals { db with
              cart_items := db.cart_items ++
                [{ id := db.next_id, cart_id := cart.id, user_id := cart.user_id,
                   product_id := d.product_id, variation_id := d.variation_id,
                   quantity := d.quantity, unit_price := some prod.price }]
              next_id := db.next_id + 1 } cart.id).cart_items =
              db.cart_items ++
                [{ id := db.next_id, cart_id := cart.id, user_id := cart.user_id,
                   product_id := d.product_id, variation_id := d.variation_id,
                   quantity := d.quantity, unit_price := some prod.price }] := hspec.1
          refine ⟨?_, hcl.2.1, hcl.2.2⟩
          rw [hcl.1]
          rw [cartItemsSubtotal_products_congr _ _ hspec.2.1]
          congr 1
          rw [DB.itemsOfCart, DB.itemsOfCart, hi]

/-- Witness for C8 at concrete stores: an inactive product and an unknown
variation give NotFound errors, pushing an existing line past 10 gives
LimitExceeded, exceeding the tracked variation stock of 1 gives
InsufficientStock 1, and a fresh request for product 7 succeeds with the
snapshotted price, id db.next_id, quantity 2, and one more line. -/
theorem add_item_spec_witness :
    add_item dbAddItem cartAdd dAddInactive = (dbAddItem, .error .productNotFound) ∧
    add_item dbAddItem cartAdd dAddBadVar = (dbAddItem, .error .variationNotFound) ∧
    add_item dbAddItem cartAdd dAddLimit = (dbAddItem, .error .limitExceeded) ∧
    add_item dbAddItem cartAdd dAddShort = (dbAddItem, .error (.insufficientStock 1)) ∧
    (add_item dbAddItem cartAdd dAddOk).2.map
        (fun it => (it.id, it.product_id, it.variation_id, it.quantity, it.unit_price)) =
      .ok (20, 7, none, 2, some 30) ∧
    (add_item dbAddItem cartAdd dAddOk).1.cart_items.length = 2 := by
  have h1 := (add_item_spec dbAddItem cartAdd dAddInactive).1 (by decide)
  have h2 := (add_item_spec dbAddItem cartAdd dAddBadVar).2.1 productFive 99 (by decide) rfl
    (by decide)
  have h3 := ((add_item_spec dbAddItem cartAdd dAddLimit).2.2 productFive 3 (by decide)
    rfl).1 (by decide)
  have h4 := ((add_item_spec dbAddItem cartAdd dAddShort).2.2 productFive 1 (by decide)
    rfl).2.1 (by decide) (by decide)
  obtain ⟨it', hA, hB, hC, hD, hE, _, _, hH, _⟩ :=
    ((add_item_spec dbAddItem cartAdd dAddOk).2.2 productSeven 5 (by decide)
      rfl).2.2 (by decide) (by decide)
  obtain ⟨hid, hlen⟩ := hH (by decide)
  refine ⟨h1, h2, h3, h4, ?_, ?_⟩
  · simp only [hA, Except.map]
    rw [hid, hB, hC, hD, hE]
    rfl
  · rw [hlen]
    decide

end ECom
